import Mathlib

/-!
# Verification of `ed_scripts` (process_datasets.py, make_datasets_json.py)

A shallow embedding of the two scripts of the `huwjenkins/ed_scripts`
repository.  The external `dials.*` programs invoked by the pipeline are
opaque: they are modelled by an environment that maps each command string to
the diagnostic lines it emits on stderr and the files it creates in the
working directory.  File contents consumed for metrics (experiment lists and
reflection tables) are modelled by a `Workspace` content oracle.  Python
exceptions are modelled with `Except String`; `return None` is `.ok none`.

Real-number formatting of floats is modelled over `ℚ` with Python's
round-half-to-even; the two external formatting helpers that involve square
roots or the dxtbx uncertainty renderer are uninterpreted functions carried
in the environment.
-/

deriving instance DecidableEq for Except

namespace EdScripts

/-! ## Decimal printing of integers (model of Python `str`/format specs) -/

/-- Fuel-driven digit accumulator (structural recursion so that the kernel
can evaluate it). -/
def natDigitsAux (fuel : Nat) (n : Nat) : List Char :=
  match fuel with
  | 0 => []
  | fuel + 1 =>
    if n < 10 then [Nat.digitChar n]
    else natDigitsAux fuel (n / 10) ++ [Nat.digitChar (n % 10)]

/-- Decimal digits of a natural number, most significant first
(model of Python's decimal rendering of a nonnegative `int`);
`n + 1` units of fuel always suffice. -/
def natDigits (n : Nat) : List Char :=
  natDigitsAux (n + 1) n

/-- Python `str` of an `int`. -/
def pyStr (i : Int) : String :=
  if i < 0 then "-" ++ String.mk (natDigits i.natAbs) else String.mk (natDigits i.natAbs)

/-- Pad a digit string on the left with zeros to width `w`. -/
def zfill (w : Nat) (l : List Char) : List Char :=
  List.replicate (w - l.length) '0' ++ l

/-- Python `f-string` format `{i:03}`: zero-pad to total width 3, the sign
counting towards the width (`-5` renders as `-05`). -/
def pyPad3 (i : Int) : String :=
  if i < 0 then "-" ++ String.mk (zfill 2 (natDigits i.natAbs))
  else String.mk (zfill 3 (natDigits i.natAbs))

/-! ## Splitting and joining (models of `str.split(sep)` and `sep.join`) -/

/-- Auxiliary splitter with an accumulator of the current chunk (reversed). -/
def splitOnAux (c : Char) : List Char → List Char → List (List Char)
  | [], acc => [acc.reverse]
  | x :: xs, acc =>
      if x = c then acc.reverse :: splitOnAux c xs []
      else splitOnAux c xs (x :: acc)

/-- Model of Python `s.split(c)` for a one-character separator. -/
def splitOnCh (c : Char) (l : List Char) : List (List Char) :=
  splitOnAux c l []

/-- Model of Python `sep.join(parts)`. -/
def pyJoin (sep : String) : List String → String
  | [] => ""
  | [a] => a
  | a :: as => a ++ sep ++ pyJoin sep as

/-- Model of Python `s.split(os.path.sep)` on a POSIX system. -/
def splitSlash (s : String) : List String :=
  (splitOnCh '/' s.data).map String.mk

/-- Model of Python `l[-3:]`. -/
def pyLast3 (l : List α) : List α :=
  l.drop (l.length - 3)

/-! ## Path construction (Workspace Manager) -/

/-- Model of Python `s.endswith('/')`. -/
def strEndsWithSlash (s : String) : Bool :=
  s.data.getLast? = some '/'

/-- Model of POSIX `os.path.join(a, b)` for a relative `b`. -/
def pathJoin2 (a b : String) : String :=
  if a = "" then b
  else if strEndsWithSlash a then a ++ b
  else a ++ "/" ++ b

/-- The working directory computed at `process_datasets.py:24`:
`os.path.join(os.getcwd(), sample, f'grid{grid}', f'xtal{xtal:03}')`. -/
def workDirOf (base sample : String) (grid xtal : Int) : String :=
  pathJoin2 (pathJoin2 (pathJoin2 base sample) ("grid" ++ pyStr grid))
    ("xtal" ++ pyPad3 xtal)

/-- The dataset identifier computed at `process_datasets.py:25`:
`'/'.join(work_dir.split(os.path.sep)[-3:])`. -/
def datasetIdOf (base sample : String) (grid xtal : Int) : String :=
  pyJoin "/" (pyLast3 (splitSlash (workDirOf base sample grid xtal)))

/-- Model of `os.makedirs(d)`: raises `FileExistsError` when the directory
already exists. -/
def osMakedirs (dirs : List String) (d : String) : Except String (List String) :=
  if d ∈ dirs then .error "FileExistsError" else .ok (d :: dirs)

/-- `process_datasets.py:26-29`: `os.makedirs` wrapped in
`try: ... except FileExistsError: pass`. -/
def tryMakedirs (dirs : List String) (d : String) : List String :=
  match osMakedirs dirs d with
  | .error _ => dirs
  | .ok ds => ds

/-! ## Rational arithmetic

The Mathlib typeclass instances on `ℚ` do not reduce inside the kernel, so
the embedding computes with the normalised-fraction primitives
`Rat.divInt`, `Rat.blt` and `Rat.floor` instead; the wrappers below are
the textbook fraction operations. -/

/-- The rational `i/1`. -/
def intQ (i : ℤ) : ℚ := Rat.divInt i 1

/-- Rational addition. -/
def qAdd (a b : ℚ) : ℚ := Rat.divInt (a.num * b.den + b.num * a.den) (a.den * b.den)

/-- Rational subtraction. -/
def qSub (a b : ℚ) : ℚ := Rat.divInt (a.num * b.den - b.num * a.den) (a.den * b.den)

/-- Rational multiplication. -/
def qMul (a b : ℚ) : ℚ := Rat.divInt (a.num * b.num) (a.den * b.den)

/-- Rational division (true division; callers guard the zero case). -/
def qDiv (a b : ℚ) : ℚ := Rat.divInt (a.num * b.den) (a.den * b.num)

/-! ## Rational models of Python float formatting -/

/-- Python's round-half-to-even on a rational, to an integer
(model of `round(v, 0)` and of the rounding done by `format`). -/
def rndHE (q : ℚ) : ℤ :=
  let f := Rat.floor q
  let frac := qSub q (intQ f)
  if Rat.blt frac (Rat.divInt 1 2) then f
  else if Rat.blt (Rat.divInt 1 2) frac then f + 1
  else if f % 2 = 0 then f else f + 1

/-- Model of the Python format spec `{q:width.precf}` over `ℚ`:
fixed-point with `prec` decimals, right-aligned in `width` columns.
(The source applies it to IEEE doubles; over the values appearing in the
claims the decimal result coincides.) -/
def formatFixed (width prec : Nat) (q : ℚ) : List Char :=
  let scaled : ℤ := rndHE (qMul q (intQ (Int.ofNat (10 ^ prec))))
  let mag := scaled.natAbs
  let ip := natDigits (mag / 10 ^ prec)
  let fp := zfill prec (natDigits (mag % 10 ^ prec))
  let s := (if scaled < 0 then ['-'] else []) ++ ip ++
    (if prec = 0 then [] else '.' :: fp)
  List.replicate (width - s.length) ' ' ++ s

/-- `process_datasets.py:168`: one entry of `formatted_unit_cell`, i.e.
`f'{v:6.2f}' if e > 1.0e-5 else f'{round(v,0):3.0f}'`
(the float literal `1.0e-5` is modelled by the rational `1/100000`). -/
def fmtUcEntry (v e : ℚ) : String :=
  if Rat.blt (Rat.divInt 1 100000) e then String.mk (formatFixed 6 2 v)
  else String.mk (formatFixed 3 0 (intQ (rndHE v)))

/-- Model of `flex.mean`: raises on an empty array
(scitbx refuses the mean of an empty array). -/
def meanQ : List ℚ → Except String ℚ
  | [] => .error "flex.mean of empty array"
  | l => .ok (qDiv (l.foldl qAdd (intQ 0)) (intQ (Int.ofNat l.length)))

/-- Model of Python `/`, which raises `ZeroDivisionError` on a zero
denominator. -/
def pyDiv (a b : ℚ) : Except String ℚ :=
  if b.num = 0 then .error "ZeroDivisionError" else .ok (qDiv a b)

/-! ## Data model -/

/-- One dataset descriptor from the registry (`datasets.json` entry). -/
structure Dataset where
  /-- `dataset.get('template')`; an empty string behaves as absent
  (Python truthiness). -/
  template : Option String
  /-- `dataset['file']`, consulted only when `template` is falsy. -/
  file : String
  grid : Int
  xtal : Int
  /-- `dataset.get('image_range')`; an empty string behaves as absent. -/
  image_range : Option String
deriving DecidableEq

/-- Python truthiness of an optional string (`None` and `''` are falsy). -/
def truthy : Option String → Bool
  | none => false
  | some s => ¬ s.isEmpty

/-- `dataset.get('template')` as used under Python truthiness. -/
def dsTemplate (ds : Dataset) : Option String :=
  match ds.template with
  | some t => if t.isEmpty then none else some t
  | none => none

/-- Python f-string rendering of an optional string (`None` prints as
`"None"`). -/
def pyOptStr : Option String → String
  | none => "None"
  | some s => s

/-- The processing parameters mapping (`datasets['parameters']`).
Field names follow the JSON keys; `import` is a Lean keyword, so the
`import` option string is called `importOpts`. -/
structure Params where
  sample : String
  spacegroup : Option String
  nproc : Int
  njobs : Nat
  /-- the `parameters['import']` option string -/
  importOpts : String
  generate_mask : Option String
  search_beam : Bool
  find_rotation_axis : Option String
  find_spots : String
  indexOpts : String
  refineOpts : String
  integrateOpts : String
  initial_index_P1 : Bool
deriving DecidableEq

/-- Outcome of one external command: its stderr lines and the files it
creates in the working directory.  The exit code is deliberately absent:
the source never reads it. -/
structure CmdResult where
  stderr : List String
  creates : List String
deriving DecidableEq

/-- First crystal data read from an experiment-list artifact
(`el.crystals()[0]`): unit-cell parameters, their standard deviations, and
the space-group label. -/
structure Crystal where
  uc : List ℚ
  ucSd : List ℚ
  sg : String
deriving DecidableEq

/-- One row of a reflection table, restricted to the fields the source
reads: the two flags and the observed/calculated pixel positions. -/
structure Refl where
  usedInRefinement : Bool
  indexedFlag : Bool
  obsX : ℚ
  obsY : ℚ
  obsZ : ℚ
  calX : ℚ
  calY : ℚ
  calZ : ℚ
deriving DecidableEq

/-- Content oracle for the artifacts `get_result` reads. -/
structure Workspace where
  crystals : String → List Crystal
  reflTable : String → List Refl

/-- The opaque external world: what each command does, plus the two
external real-number formatters (dxtbx
`format_float_with_standard_uncertainty`, and the `f'{sqrt(m):8.5f}'`
rendering of an rmsd given the mean square `m`), left uninterpreted. -/
structure Env where
  run : String → CmdResult
  ffwsu : ℚ → ℚ → String
  fmtRmsd : ℚ → String

/-- The Dataset Result dictionary built at `process_datasets.py:181-189`. -/
structure DResult where
  dataset_id : String
  output_files : List String
  sg : String
  uc : List String
  total : Nat
  indexedCount : Nat
  unindexed : Nat
  rmsds : String
deriving DecidableEq

/-! ## Stage runner -/

/-- Mutable state threaded through one `ProcessDataset.__call__`:
the files present in the working directory, the commands invoked so far,
the log lines emitted, and the `.err` files written (name, contents). -/
structure PSt where
  fs : List String
  cmds : List String
  logs : List String
  errs : List (String × String)
deriving DecidableEq

/-- One `easy_run.fully_buffered` invocation followed by the
`if len(r.stderr_lines) > 0: open(<err>, 'w').write('\n'.join(...))`
pattern that every stage of the source repeats. -/
def runStage (env : Env) (errName cmd : String) (st : PSt) : CmdResult × PSt :=
  let r := env.run cmd
  let st1 : PSt := { st with fs := r.creates ++ st.fs, cmds := st.cmds ++ [cmd] }
  if r.stderr.isEmpty then (r, st1)
  else (r, { st1 with errs := st1.errs ++ [(errName, pyJoin "\n" r.stderr)],
                      fs := errName :: st1.fs })

/-- The `dials.import` command built at `process_datasets.py:38-43`. -/
def importCmdOf (p : Params) (ds : Dataset) : String :=
  (match dsTemplate ds with
   | some t => "dials.import template=../../../" ++ t ++ " " ++ p.importOpts
   | none => "dials.import ../../../" ++ ds.file ++ " " ++ p.importOpts) ++
  (match ds.image_range with
   | some ir => if ir.isEmpty then "" else " image_range=" ++ ir
   | none => "")

/-- The log line emitted when import fails (`process_datasets.py:48-51`);
note it names the locator, not the dataset identifier. -/
def importFailMsg (ds : Dataset) : String :=
  match dsTemplate ds with
  | some t => "import of " ++ t ++ " failed!"
  | none => "import of " ++ ds.file ++ " failed!"

/-- `dials.generate_mask` command (`process_datasets.py:56`). -/
def genMaskCmd (p : Params) : String :=
  "dials.generate_mask imported.expt " ++ pyOptStr p.generate_mask

/-- `dials.apply_mask` command (`process_datasets.py:63`). -/
def applyMaskCmd : String :=
  "dials.apply_mask imported.expt mask=pixels.mask"

/-- `dials.find_spots` command (`process_datasets.py:74`). -/
def findSpotsCmd (p : Params) (expt : String) : String :=
  "dials.find_spots " ++ expt ++ " " ++ p.find_spots ++ " nproc=" ++ pyStr p.nproc

/-- `dials.search_beam_position` command (`process_datasets.py:82`). -/
def beamCmd (expt : String) : String :=
  "dials.search_beam_position " ++ expt ++ " strong.refl output.experiments=optimised_beam.expt"

/-- `dials.find_rotation_axis` command (`process_datasets.py:92`). -/
def axisCmd (p : Params) (expt : String) : String :=
  "dials.find_rotation_axis " ++ expt ++ " strong.refl " ++
    pyOptStr p.find_rotation_axis ++ " output.experiments=optimised_axis.expt"

/-- Plain `dials.index` command for the trivial space group
(`process_datasets.py:102`). -/
def indexTrivialCmd (p : Params) (expt : String) : String :=
  "dials.index " ++ expt ++ " strong.refl " ++ p.indexOpts

/-- The P1 pre-indexing command (`process_datasets.py:109`). -/
def indexP1Cmd (p : Params) (expt : String) : String :=
  "dials.index " ++ expt ++ " strong.refl " ++ p.indexOpts ++
    " output.experiments=P1.expt output.reflections=P1.refl output.log=dials.index_P1.log"

/-- The space-group-constrained `dials.index` command
(`process_datasets.py:117`). -/
def indexSgCmd (p : Params) (expt : String) : String :=
  "dials.index " ++ expt ++ " strong.refl " ++ p.indexOpts ++
    " space_group=" ++ pyOptStr p.spacegroup

/-- Static refinement command (`process_datasets.py:127`). -/
def refineStaticCmd (p : Params) : String :=
  "dials.refine indexed.expt indexed.refl " ++ p.refineOpts ++
    " scan_varying=false output.experiments=refined_static.expt output.reflections=refined_static.refl"

/-- Scan-varying refinement command (`process_datasets.py:137`). -/
def refineSvCmd (p : Params) : String :=
  "dials.refine refined_static.expt refined_static.refl " ++ p.refineOpts ++
    " scan_varying=true"

/-- Integration command (`process_datasets.py:147`). -/
def integrateCmd (p : Params) : String :=
  "dials.integrate refined.expt refined.refl " ++ p.integrateOpts ++
    " nproc=" ++ pyStr p.nproc

/-- Result of the stages preceding indexing. -/
inductive FrontOut
  /-- import emitted diagnostics: the dataset is aborted (`return` with no
  value, `process_datasets.py:52`). -/
  | importFailed (st : PSt)
  /-- masking was enabled and `dials.apply_mask` emitted diagnostics: the
  local `expt` is never assigned, so the later f-string raises
  `UnboundLocalError`. -/
  | unbound (st : PSt)
  /-- continue into indexing with the current artifact `expt`. -/
  | ready (expt : String) (st : PSt)
deriving DecidableEq

/-- `process_datasets.py:54-71`: optional mask generation and application.
When masking is enabled, the artifact becomes `masked.expt` exactly when
`dials.apply_mask` emitted no diagnostics; when it did, the Python local
`expt` is left unassigned (`none` here). -/
def maskBlock (p : Params) (env : Env) (st : PSt) : Option String × PSt :=
  if truthy p.generate_mask then
    let rg := runStage env "dials.generate_mask.err" (genMaskCmd p) st
    let ra := runStage env "dials.apply_mask.err" applyMaskCmd rg.2
    (if ra.1.stderr.isEmpty then some "masked.expt" else none, ra.2)
  else (some "imported.expt", st)

/-- `process_datasets.py:80-88`: optional beam-position search; the
artifact switches to `optimised_beam.expt` exactly when the stage emitted
no diagnostics. -/
def beamBlock (p : Params) (env : Env) (expt : String) (st : PSt) : String × PSt :=
  if p.search_beam then
    let rb := runStage env "dials.search_beam_position.err" (beamCmd expt) st
    (if rb.1.stderr.isEmpty then "optimised_beam.expt" else expt, rb.2)
  else (expt, st)

/-- `process_datasets.py:90-98`: optional rotation-axis search; same
switch-on-empty-diagnostics pattern, with the error file named
`find_rotation_axis.err`. -/
def axisBlock (p : Params) (env : Env) (expt : String) (st : PSt) : String × PSt :=
  if truthy p.find_rotation_axis then
    let rx := runStage env "find_rotation_axis.err" (axisCmd p expt) st
    (if rx.1.stderr.isEmpty then "optimised_axis.expt" else expt, rx.2)
  else (expt, st)

/-- `process_datasets.py:37-98`: import, optional mask generation and
application, spot finding, optional beam-position search, optional
rotation-axis search. -/
def frontEnd (p : Params) (env : Env) (ds : Dataset) (fs0 : List String) : FrontOut :=
  let st0 : PSt := ⟨fs0, [], [], []⟩
  let ri := runStage env "dials.import.err" (importCmdOf p ds) st0
  if ri.1.stderr.isEmpty then
    match maskBlock p env ri.2 with
    | (none, st) => .unbound st
    | (some expt, st) =>
      let rf := runStage env "dials.find_spots.err" (findSpotsCmd p expt) st
      let ab := beamBlock p env expt rf.2
      let ax := axisBlock p env ab.1 ab.2
      .ready ax.1 ax.2
  else
    .importFailed { ri.2 with logs := ri.2.logs ++ [importFailMsg ds] }

/-- `process_datasets.py:108-115`: the optional P1 pre-indexing pass; the
artifact name switches to `P1.expt` exactly when the pass emitted no
diagnostics (whether or not `P1.expt` was created). -/
def p1Block (p : Params) (env : Env) (expt : String) (st : PSt) : String × PSt :=
  if p.initial_index_P1 then
    let rp := runStage env "dials.index_P1.err" (indexP1Cmd p expt) st
    (if rp.1.stderr.isEmpty then "P1.expt" else expt, rp.2)
  else (expt, st)

/-- `process_datasets.py:100-121`: the indexing command(s). -/
def indexPhase (p : Params) (env : Env) (expt : String) (st : PSt) : PSt :=
  if p.spacegroup ∈ ([none, some "P1"] : List (Option String)) then
    (runStage env "dials.index.err" (indexTrivialCmd p expt) st).2
  else
    let a := p1Block p env expt st
    (runStage env "dials.index.err" (indexSgCmd p a.1) a.2).2

/-- `ProcessDataset.get_result` (`process_datasets.py:159-189`).
Returns the Dataset Result and the log lines it emits; raises
(`.error`) when the experiment list has no crystal or when `flex.mean`
is taken over an empty selection.  On an exception the log lines already
emitted are dropped (no claim observes logs of a crashed worker). -/
def getResult (ws : Workspace) (ffwsu : ℚ → ℚ → String) (fmtRmsd : ℚ → String)
    (workDir dataset_id experiments reflections : String) (skipped : Bool) :
    Except String (DResult × List String) :=
  match (ws.crystals experiments).head? with
  | none => .error "IndexError: list index out of range"
  | some xtal =>
    let uc := xtal.uc
    let ucSd := xtal.ucSd
    let sg := xtal.sg
    let logs := if skipped then [] else
      [dataset_id ++ " processed successfully " ++ sg ++ " " ++
        pyJoin " " ((uc.zip ucSd).map fun ve => ffwsu ve.1 ve.2)]
    let formatted := (uc.zip ucSd).map fun ve => fmtUcEntry ve.1 ve.2
    let refl := ws.reflTable reflections
    let nTotal := refl.length
    let nIndexed := (refl.filter fun r => r.indexedFlag).length
    let sel := refl.filter fun r => r.usedInRefinement
    match meanQ (sel.map fun r => qMul (qSub r.obsX r.calX) (qSub r.obsX r.calX)),
          meanQ (sel.map fun r => qMul (qSub r.obsY r.calY) (qSub r.obsY r.calY)),
          meanQ (sel.map fun r => qMul (qSub r.obsZ r.calZ) (qSub r.obsZ r.calZ)) with
    | .ok msx, .ok msy, .ok msz =>
      .ok ({ dataset_id := dataset_id
             output_files := if skipped then [] else
               [pathJoin2 workDir "integrated.expt", pathJoin2 workDir "integrated.refl"]
             sg := sg
             uc := formatted
             total := nTotal
             indexedCount := nIndexed
             unindexed := nTotal - nIndexed
             rmsds := fmtRmsd msx ++ " " ++ fmtRmsd msy ++ " " ++ fmtRmsd msz }, logs)
    | _, _, _ => .error "flex.mean of empty array"

/-- `process_datasets.py:100-157`: indexing, static refinement,
scan-varying refinement, integration, result extraction.  Each fatal stage
aborts (returns `.ok none`) exactly when its expected output artifact is
absent afterwards. -/
def backEnd (p : Params) (env : Env) (ws : Workspace)
    (workDir dataset_id expt : String) (st : PSt) :
    PSt × Except String (Option DResult) :=
  let st := indexPhase p env expt st
  if "indexed.expt" ∈ st.fs then
    let r1 := runStage env "dials.refine_static.err" (refineStaticCmd p) st
    if "refined_static.expt" ∈ r1.2.fs then
      let r2 := runStage env "dials.refine.err" (refineSvCmd p) r1.2
      if "refined.expt" ∈ r2.2.fs then
        let r3 := runStage env "dials.integrate.err" (integrateCmd p) r2.2
        if "integrated.expt" ∈ r3.2.fs then
          match getResult ws env.ffwsu env.fmtRmsd workDir dataset_id
              "integrated.expt" "indexed.refl" false with
          | .error e => (r3.2, .error e)
          | .ok res => ({ r3.2 with logs := r3.2.logs ++ res.2 }, .ok (some res.1))
        else ({ r3.2 with logs := r3.2.logs ++
                 [dataset_id ++ " failed in integration"] }, .ok none)
      else ({ r2.2 with logs := r2.2.logs ++
               [dataset_id ++ " failed in scan varying refinement"] }, .ok none)
    else ({ r1.2 with logs := r1.2.logs ++
             [dataset_id ++ " failed in intitial refinement"] }, .ok none)
  else ({ st with logs := st.logs ++
           [dataset_id ++ " failed to index in space group " ++
             pyOptStr p.spacegroup] }, .ok none)

/-- The observable outcome of one `ProcessDataset.__call__`. -/
structure CallOut where
  dirs : List String
  st : PSt
  outcome : Except String (Option DResult)

/-- `ProcessDataset.__call__` (`process_datasets.py:23-157`).
`base` is `os.getcwd()` at dispatch time, `dirs0` the set of existing
directories, `fs0` the files already present in this dataset's working
directory. -/
def pcall (p : Params) (env : Env) (ws : Workspace) (base : String)
    (dirs0 : List String) (fs0 : List String) (ds : Dataset) : CallOut :=
  let workDir := workDirOf base p.sample ds.grid ds.xtal
  let dataset_id := datasetIdOf base p.sample ds.grid ds.xtal
  let dirs := tryMakedirs dirs0 workDir
  if "integrated.expt" ∈ fs0 then
    let st : PSt := ⟨fs0, [],
      ["Skipping " ++ dataset_id ++ " as file integrated.expt exists"], []⟩
    match getResult ws env.ffwsu env.fmtRmsd workDir dataset_id
        "integrated.expt" "indexed.refl" true with
    | .error e => ⟨dirs, st, .error e⟩
    | .ok res => ⟨dirs, { st with logs := st.logs ++ res.2 }, .ok (some res.1)⟩
  else
    match frontEnd p env ds fs0 with
    | .importFailed st => ⟨dirs, st, .ok none⟩
    | .unbound st => ⟨dirs, st, .error "UnboundLocalError"⟩
    | .ready expt st =>
      let r := backEnd p env ws workDir dataset_id expt st
      ⟨dirs, r.1, r.2⟩

/-! ### Named intermediate states (used to phrase per-stage properties) -/

/-- State after the import stage. -/
def stImport (p : Params) (env : Env) (ds : Dataset) (fs0 : List String) : PSt :=
  (runStage env "dials.import.err" (importCmdOf p ds) ⟨fs0, [], [], []⟩).2

/-- State after the spot-finding stage run on artifact `e`. -/
def spotsRun (p : Params) (env : Env) (e : String) (st : PSt) : PSt :=
  (runStage env "dials.find_spots.err" (findSpotsCmd p e) st).2

/-- State after the static-refinement command, starting from the ready
state `st` with artifact `expt`. -/
def afterRefineStatic (p : Params) (env : Env) (expt : String) (st : PSt) : PSt :=
  (runStage env "dials.refine_static.err" (refineStaticCmd p) (indexPhase p env expt st)).2

/-- State after the scan-varying refinement command. -/
def afterRefineSv (p : Params) (env : Env) (expt : String) (st : PSt) : PSt :=
  (runStage env "dials.refine.err" (refineSvCmd p) (afterRefineStatic p env expt st)).2

/-- State after the integration command. -/
def afterIntegrate (p : Params) (env : Env) (expt : String) (st : PSt) : PSt :=
  (runStage env "dials.integrate.err" (integrateCmd p) (afterRefineSv p env expt st)).2

/-! ## Batch coordinator (`run`, `process_datasets.py:191-236`) -/

/-- `easy_mp.parallel_map(process_dataset, datasets, preserve_order=True)`:
the external pool is modelled by its documented contract, an
order-preserving map; an exception raised in any worker propagates
(`.error`).  `fsOf` gives the pre-existing contents of each dataset's
working directory. -/
def gatherResults (p : Params) (env : Env) (ws : Workspace) (base : String)
    (dirs0 : List String) (fsOf : Dataset → List String) :
    List Dataset → Except String (List (Option DResult))
  | [] => .ok []
  | d :: rest =>
    match (pcall p env ws base dirs0 (fsOf d) d).outcome with
    | .error e => .error e
    | .ok r =>
      match gatherResults p env ws base dirs0 fsOf rest with
      | .error e => .error e
      | .ok rs => .ok (r :: rs)

/-- Left-pad a string with spaces to width `w` (Python `{n:5d}`). -/
def padSp (w : Nat) (s : String) : String :=
  String.mk (List.replicate (w - s.data.length) ' ') ++ s

/-- One line of the summary table (`process_datasets.py:235`), including the
unguarded division `100*r['indexed']/r['total']`. -/
def summaryLine (r : DResult) : Except String String :=
  match pyDiv (qMul (intQ 100) (intQ (Int.ofNat r.indexedCount))) (intQ (Int.ofNat r.total)) with
  | .error e => .error e
  | .ok pct =>
    .ok (r.dataset_id ++ " " ++ r.sg ++ " " ++ pyJoin " " r.uc ++ " " ++
      padSp 5 (pyStr r.indexedCount) ++ " " ++ padSp 5 (pyStr r.unindexed) ++ " " ++
      String.mk (formatFixed 5 1 pct) ++ " " ++ r.rmsds)

/-- The summary loop (`process_datasets.py:234-235`): one line per
non-absent result, aborting with the exception if a line raises. -/
def summaryLoop : List (Option DResult) → Except String (List String)
  | [] => .ok []
  | none :: rest => summaryLoop rest
  | some r :: rest =>
    match summaryLine r with
    | .error e => .error e
    | .ok l =>
      match summaryLoop rest with
      | .error e => .error e
      | .ok ls => .ok (l :: ls)

/-- The "Created the following integrated files" lines
(`process_datasets.py:230-232`): results with a non-empty `output_files`
list contribute one line with their two paths. -/
def createdLines (results : List (Option DResult)) : List String :=
  results.filterMap fun r =>
    match r with
    | some r =>
      match r.output_files with
      | a :: b :: _ => some (a ++ " " ++ b)
      | _ => none
    | none => none

/-! ## Registry builder (`make_datasets_json.py`) -/

/-- A dataset record written by the registry builder. -/
structure RegDataset where
  template : String
  grid : Int
  xtal : Int
deriving DecidableEq

/-- Model of `os.path.basename` on POSIX: everything after the last `/`. -/
def basenameOf (t : String) : List Char :=
  (splitOnCh '/' t.data).getLastD []

/-- Substring test (Python `needle in haystack` on strings). -/
def containsSub (n : List Char) : List Char → Bool
  | [] => n.isEmpty
  | x :: xs => n.isPrefixOf (x :: xs) || containsSub n xs

/-- Digits-to-number accumulator. -/
def digitsVal (l : List Char) : Nat :=
  l.foldl (fun acc c => 10 * acc + (c.toNat - 48)) 0

/-- Model of Python `int(s)` on the strings arising here (an optional sign
followed by decimal digits; `ValueError`, i.e. `none`, otherwise).
The inputs come from `'_'`-separated filename pieces, so the underscore
digit-grouping and surrounding whitespace that Python would additionally
accept cannot occur. -/
def pyIntParse : List Char → Option Int
  | [] => none
  | '-' :: ds =>
    if ds ≠ [] ∧ ds.all Char.isDigit then some (-(digitsVal ds : Int)) else none
  | '+' :: ds =>
    if ds ≠ [] ∧ ds.all Char.isDigit then some (digitsVal ds : Int) else none
  | ds =>
    if ds.all Char.isDigit then some (digitsVal ds : Int) else none

/-- `make_datasets_json.py:60-65` (`get_xtal`): the first `'_'`-piece of the
basename containing `'xtal'`, its first four characters dropped, parsed as
an int; `None` when there is no such piece or parsing fails. -/
def get_xtal (template : String) : Option Int :=
  match (splitOnCh '_' (basenameOf template)).filter
      (fun x => containsSub "xtal".data x) with
  | [] => none
  | x :: _ => pyIntParse (x.drop 4)

/-- `make_datasets_json.py:67-76` (`get_grid`): the last path component
containing `'grid'`, split on `'_'`, first piece containing `'grid'`, its
first four characters dropped, parsed as an int.  (The inner list is never
empty when the outer one is not, since `'grid'` contains no `'_'`.) -/
def get_grid (template : String) : Option Int :=
  let comps := (splitOnCh '/' template.data)
  match (comps.filter fun j => containsSub "grid".data j).getLast? with
  | none => none
  | some comp =>
    match (splitOnCh '_' comp).filter (fun g => containsSub "grid".data g) with
    | [] => none
    | g :: _ => pyIntParse (g.drop 4)

/-- Replace every occurrence of a non-empty pattern, left to right
(Python `str.replace`; the call site always passes a pattern containing a
dot, hence non-empty). -/
def pyReplaceAux (fuel : Nat) (s pat rep : List Char) : List Char :=
  match fuel with
  | 0 => s
  | fuel + 1 =>
    match s with
    | [] => []
    | x :: xs =>
      if pat ≠ [] ∧ pat.isPrefixOf (x :: xs) then
        rep ++ pyReplaceAux fuel ((x :: xs).drop pat.length) pat rep
      else x :: pyReplaceAux fuel xs pat rep

/-- Every step consumes at least one character of `s`, so `s.length` units
of fuel always suffice. -/
def pyReplace (s pat rep : List Char) : List Char :=
  pyReplaceAux s.length s pat rep

/-- `make_datasets_json.py:56-58` (`make_template`): replace the trailing
sequence number by `####`.  Raises `IndexError` when the basename has no
`'.'` (then `split('.')[-2]` is out of range). -/
def make_template (t : String) : Except String String :=
  match ((splitOnCh '.' (basenameOf t)).reverse.get? 1) with
  | none => .error "IndexError: list index out of range"
  | some stem =>
    let number := (splitOnCh '_' stem).getLastD []
    let ext := (splitOnCh '.' t.data).getLastD []
    .ok (String.mk (pyReplace t.data (number ++ '.' :: ext)
      ('#' :: '#' :: '#' :: '#' :: '.' :: ext)))

/-- Python truthiness of `Option Int` (`None` and `0` are falsy). -/
def truthyInt : Option Int → Bool
  | none => false
  | some i => i != 0

/-- `get_xtal(t) if get_xtal(t) else 1` /
`get_grid(t) if get_grid(t) else 1` (`make_datasets_json.py:83-84`). -/
def idxOrDefault (o : Option Int) : Int :=
  if truthyInt o then o.getD 1 else 1

/-- Sort key order used by `sorted(..., key=lambda x: (x['grid'], x['xtal']))`. -/
def regLe (a b : RegDataset) : Bool :=
  a.grid < b.grid || (a.grid == b.grid && a.xtal ≤ b.xtal)

/-- `make_datasets_json.py:78-85` (`generate_datasets`): build one record
per matched file (the `glob` result is the input list here) and sort by
`(grid, xtal)`.  Propagates the `IndexError` that `make_template` can
raise. -/
def generate_datasets : List String → Except String (List RegDataset)
  | [] => .ok []
  | t :: ts =>
    match make_template t with
    | .error e => .error e
    | .ok tpl =>
      match generate_datasets ts with
      | .error e => .error e
      | .ok rest =>
        .ok (({ template := tpl
                grid := idxOrDefault (get_grid t)
                xtal := idxOrDefault (get_xtal t) } : RegDataset) :: rest)

/-- Insert `x` after all elements `y` with `le y x` (keeps earlier elements
with an equal key first, as Python's stable sort does). -/
def insertSorted (le : α → α → Bool) (x : α) : List α → List α
  | [] => [x]
  | y :: ys => if le y x then y :: insertSorted le x ys else x :: y :: ys

/-- Stable sort modelling Python `sorted(l, key=...)`. -/
def pySorted (le : α → α → Bool) (l : List α) : List α :=
  l.foldl (fun acc x => insertSorted le x acc) []

/-- The full builder result including the final sort. -/
def generate_datasets_sorted (ts : List String) : Except String (List RegDataset) :=
  match generate_datasets ts with
  | .error e => .error e
  | .ok l => .ok (pySorted regLe l)

/-! ## Concrete fixtures used by counterexamples and witnesses -/

/-- A baseline parameter set: every optional stage disabled, trivial space
group. -/
def pBase : Params :=
  { sample := "S", spacegroup := none, nproc := 4, njobs := 2, importOpts := "o",
    generate_mask := none, search_beam := false, find_rotation_axis := none,
    find_spots := "fs", indexOpts := "ix", refineOpts := "rf", integrateOpts := "ig",
    initial_index_P1 := false }

/-- A simple template-based dataset descriptor, grid 1, crystal 1. -/
def dsBase : Dataset :=
  { template := some "a_####.img", file := "", grid := 1, xtal := 1, image_range := none }

/-- One reflection row, indexed and used in refinement, with zero residual. -/
def reflBase : Refl :=
  { usedInRefinement := true, indexedFlag := true,
    obsX := intQ 0, obsY := intQ 0, obsZ := intQ 0,
    calX := intQ 0, calY := intQ 0, calZ := intQ 0 }

/-- Workspace whose `integrated.expt` holds one crystal with unit-cell
value `10.00001` and standard uncertainty `0.00002`, and whose
`indexed.refl` holds one indexed reflection. -/
def wsBase : Workspace :=
  ⟨fun f => if f = "integrated.expt" then
      [⟨[Rat.divInt 1000001 100000], [Rat.divInt 2 100000], "P 1"⟩] else [],
   fun f => if f = "indexed.refl" then [reflBase] else []⟩

/-- Environment whose every command succeeds silently and creates nothing. -/
def envQuiet : Env :=
  { run := fun _ => ⟨[], []⟩, ffwsu := fun _ _ => "U", fmtRmsd := fun _ => "R" }

/-- Environment for the beam-search scenario: the beam-position search
*creates its output artifact* but also emits a diagnostic line; everything
else is silent and creates nothing. -/
def envBeamNoisy : Env :=
  { run := fun c =>
      if c = "dials.search_beam_position imported.expt strong.refl output.experiments=optimised_beam.expt"
      then ⟨["warning"], ["optimised_beam.expt"]⟩ else ⟨[], []⟩,
    ffwsu := fun _ _ => "U", fmtRmsd := fun _ => "R" }

/-- Parameters with only the beam-position search enabled. -/
def pBeam : Params := { pBase with search_beam := true }

/-- Parameters with only masking enabled. -/
def pMask : Params := { pBase with generate_mask := some "gm" }

/-- Environment where `dials.apply_mask` emits two diagnostic lines (and no
command creates anything). -/
def envMaskNoisy : Env :=
  { run := fun c =>
      if c = "dials.apply_mask imported.expt mask=pixels.mask"
      then ⟨["err1", "err2"], []⟩ else ⟨[], []⟩,
    ffwsu := fun _ _ => "U", fmtRmsd := fun _ => "R" }

/-- Parameters with only the rotation-axis search enabled. -/
def pAxis : Params := { pBase with find_rotation_axis := some "fa" }

/-- Environment where the rotation-axis search emits a diagnostic line. -/
def envAxisNoisy : Env :=
  { run := fun c =>
      if c = "dials.find_rotation_axis imported.expt strong.refl fa output.experiments=optimised_axis.expt"
      then ⟨["boom"], []⟩ else ⟨[], []⟩,
    ffwsu := fun _ _ => "U", fmtRmsd := fun _ => "R" }

/-- Environment where only the import stage emits a diagnostic line. -/
def envImportFail : Env :=
  { run := fun c =>
      if c = "dials.import template=../../../a_####.img o"
      then ⟨["import error"], []⟩ else ⟨[], []⟩,
    ffwsu := fun _ _ => "U", fmtRmsd := fun _ => "R" }

/-- Parameters for the two-pass indexing scenario: target space group `P2`
with the P1 pre-indexing pass enabled. -/
def pP2 : Params := { pBase with spacegroup := some "P2", initial_index_P1 := true }

/-- Environment for a fully successful silent pipeline run under `pBase`:
each fatal stage creates its expected output artifact. -/
def envSuccess : Env :=
  { run := fun c =>
      if c = "dials.index imported.expt strong.refl ix" then ⟨[], ["indexed.expt"]⟩
      else if c = "dials.refine indexed.expt indexed.refl rf scan_varying=false output.experiments=refined_static.expt output.reflections=refined_static.refl"
        then ⟨[], ["refined_static.expt"]⟩
      else if c = "dials.refine refined_static.expt refined_static.refl rf scan_varying=true"
        then ⟨[], ["refined.expt"]⟩
      else if c = "dials.integrate refined.expt refined.refl ig nproc=4"
        then ⟨[], ["integrated.expt"]⟩
      else ⟨[], []⟩,
    ffwsu := fun _ _ => "U", fmtRmsd := fun _ => "R" }

/-- A Dataset Result with zero observations (as the summary loop would
receive it). -/
def resT0 : DResult :=
  { dataset_id := "d", output_files := [], sg := "P1", uc := ["a"],
    total := 0, indexedCount := 0, unindexed := 0, rmsds := "r" }

/-- A Dataset Result with two observations, one indexed. -/
def resT2 : DResult :=
  { resT0 with total := 2, indexedCount := 1, unindexed := 1 }

/-- The descriptor the registry builder produces for
`grid1/a_xtal-5_0000.mrc`. -/
def regCex : RegDataset :=
  { template := "grid1/a_xtal-5_####.mrc", grid := 1, xtal := -5 }

/-- The Dataset Result of the skipped run over `wsBase`. -/
def skipResult : DResult :=
  { dataset_id := "S/grid1/xtal001", output_files := [], sg := "P 1",
    uc := [" 10.00"], total := 1, indexedCount := 1, unindexed := 0,
    rmsds := "R R R" }

/-- The pipeline state frontEnd reaches under `pBase`/`envQuiet` with an
empty working directory. -/
def stC4 : PSt :=
  ⟨[], ["dials.import template=../../../a_####.img o",
        "dials.find_spots imported.expt fs nproc=4"], [], []⟩

/-- Parameters with beam and axis search enabled (mask off, trivial
space group). -/
def pBeamAxis : Params :=
  { pBase with search_beam := true, find_rotation_axis := some "fa" }

/-- Environment where every stage is noisy (one diagnostic line) except
import, and the fatal stages each create their expected artifact. -/
def envNoisyCreate : Env :=
  { run := fun c =>
      if c = "dials.import template=../../../a_####.img o" then ⟨[], []⟩
      else if c = "dials.index imported.expt strong.refl ix" then ⟨["w"], ["indexed.expt"]⟩
      else if c = "dials.refine indexed.expt indexed.refl rf scan_varying=false output.experiments=refined_static.expt output.reflections=refined_static.refl"
        then ⟨["w"], ["refined_static.expt"]⟩
      else if c = "dials.refine refined_static.expt refined_static.refl rf scan_varying=true"
        then ⟨["w"], ["refined.expt"]⟩
      else ⟨["w"], []⟩,
    ffwsu := fun _ _ => "U", fmtRmsd := fun _ => "R" }

/-- A second descriptor (crystal 2, template `b_####.img`). -/
def ds2 : Dataset :=
  { template := some "b_####.img", file := "", grid := 1, xtal := 2, image_range := none }

/-- Environment where dataset `a` succeeds through integration and dataset
`b` fails at import. -/
def envMixed : Env :=
  { run := fun c =>
      if c = "dials.import template=../../../b_####.img o" then ⟨["fail"], []⟩
      else if c = "dials.index imported.expt strong.refl ix" then ⟨[], ["indexed.expt"]⟩
      else if c = "dials.refine indexed.expt indexed.refl rf scan_varying=false output.experiments=refined_static.expt output.reflections=refined_static.refl"
        then ⟨[], ["refined_static.expt"]⟩
      else if c = "dials.refine refined_static.expt refined_static.refl rf scan_varying=true"
        then ⟨[], ["refined.expt"]⟩
      else if c = "dials.integrate refined.expt refined.refl ig nproc=4"
        then ⟨[], ["integrated.expt"]⟩
      else ⟨[], []⟩,
    ffwsu := fun _ _ => "U", fmtRmsd := fun _ => "R" }

/-- The Dataset Result of a fresh (non-skipped) successful run of `dsBase`
over `wsBase` from base `/data`. -/
def fullResult : DResult :=
  { dataset_id := "S/grid1/xtal001",
    output_files := ["/data/S/grid1/xtal001/integrated.expt",
                     "/data/S/grid1/xtal001/integrated.refl"],
    sg := "P 1", uc := [" 10.00"], total := 1, indexedCount := 1, unindexed := 0,
    rmsds := "R R R" }

/-! ## General lemmas -/

theorem natDigitsAux_mem (fuel : Nat) : ∀ (n : Nat), ∀ c ∈ natDigitsAux fuel n,
    ∃ d, d < 10 ∧ c = Nat.digitChar d := by
  induction fuel with
  | zero => intro n c hc; simp [natDigitsAux] at hc
  | succ fuel ih =>
    intro n c hc
    rw [natDigitsAux] at hc
    split at hc
    · next h => simp at hc; exact ⟨n, h, hc⟩
    · rcases List.mem_append.1 hc with h1 | h1
      · exact ih _ _ h1
      · simp at h1
        exact ⟨n % 10, Nat.mod_lt _ (by omega), h1⟩

theorem digitChar_ne_slash {d : Nat} (h : d < 10) : Nat.digitChar d ≠ '/' := by
  interval_cases d <;> decide

theorem digitChar_ne_paren {d : Nat} (h : d < 10) : Nat.digitChar d ≠ '(' := by
  interval_cases d <;> decide

theorem natDigits_no_slash (n : Nat) : ∀ c ∈ natDigits n, c ≠ '/' := by
  intro c hc
  obtain ⟨d, hd, rfl⟩ := natDigitsAux_mem _ _ _ hc
  exact digitChar_ne_slash hd

theorem splitOnAux_append (c : Char) (ys : List Char) :
    ∀ (xs acc : List Char),
      splitOnAux c (xs ++ c :: ys) acc = splitOnAux c xs acc ++ splitOnAux c ys [] := by
  intro xs
  induction xs with
  | nil => intro acc; simp [splitOnAux]
  | cons x xs ih =>
    intro acc
    by_cases hx : x = c
    · subst hx
      simp [splitOnAux, ih]
    · simp [splitOnAux, hx, ih]

theorem splitOnAux_no_sep (c : Char) :
    ∀ (xs acc : List Char), (∀ x ∈ xs, x ≠ c) →
      splitOnAux c xs acc = [acc.reverse ++ xs] := by
  intro xs
  induction xs with
  | nil => intro acc _; simp [splitOnAux]
  | cons x xs ih =>
    intro acc h
    have hx : x ≠ c := h x (by simp)
    rw [splitOnAux, if_neg hx, ih (x :: acc) (fun y hy => h y (by simp [hy]))]
    simp

theorem splitOnCh_append (c : Char) (xs ys : List Char) :
    splitOnCh c (xs ++ c :: ys) = splitOnCh c xs ++ splitOnCh c ys := by
  simp [splitOnCh, splitOnAux_append]

theorem splitOnCh_no_sep (c : Char) (xs : List Char) (h : ∀ x ∈ xs, x ≠ c) :
    splitOnCh c xs = [xs] := by
  simp [splitOnCh, splitOnAux_no_sep c xs [] h]

theorem string_ext {s t : String} (h : s.data = t.data) : s = t := by
  cases s; cases t; simp_all

theorem string_data_ne_nil {s : String} (h : s ≠ "") : s.data ≠ [] := by
  intro hd
  exact h (string_ext (by simp [hd]))

theorem mem_of_getLast?_eq {l : List Char} {a : Char} (h : l.getLast? = some a) : a ∈ l := by
  cases l with
  | nil => simp at h
  | cons x xs =>
    have : (x :: xs).getLast (by simp) = a := by
      rwa [List.getLast?_eq_getLast _ (by simp), Option.some_inj] at h
    rw [← this]
    exact List.getLast_mem _

theorem strEndsWithSlash_eq_false {s : String} (h : ∀ ch ∈ s.data, ch ≠ '/') :
    strEndsWithSlash s = false := by
  unfold strEndsWithSlash
  cases hl : s.data.getLast? with
  | none => simp
  | some a =>
    have ha := h a (mem_of_getLast?_eq hl)
    simp [ha]

theorem getLast?_append_right {l1 l2 : List Char} (h : l2 ≠ []) :
    (l1 ++ l2).getLast? = l2.getLast? := by
  rw [List.getLast?_append]
  cases hl : l2.getLast? with
  | none => exact absurd (List.getLast?_eq_none_iff.mp hl) h
  | some a => rfl

theorem splitSlash_triple (A : List Char) (s gs xs : String)
    (hs : ∀ ch ∈ s.data, ch ≠ '/') (hg : ∀ ch ∈ gs.data, ch ≠ '/')
    (hx : ∀ ch ∈ xs.data, ch ≠ '/') :
    splitOnCh '/' (A ++ '/' :: (s.data ++ '/' :: (gs.data ++ '/' :: xs.data)))
      = splitOnCh '/' A ++ [s.data, gs.data, xs.data] := by
  rw [splitOnCh_append, splitOnCh_append, splitOnCh_append,
    splitOnCh_no_sep _ _ hs, splitOnCh_no_sep _ _ hg, splitOnCh_no_sep _ _ hx]
  simp

theorem splitSlash_triple_nil (s gs xs : String)
    (hs : ∀ ch ∈ s.data, ch ≠ '/') (hg : ∀ ch ∈ gs.data, ch ≠ '/')
    (hx : ∀ ch ∈ xs.data, ch ≠ '/') :
    splitOnCh '/' (s.data ++ '/' :: (gs.data ++ '/' :: xs.data))
      = [s.data, gs.data, xs.data] := by
  rw [splitOnCh_append, splitOnCh_append,
    splitOnCh_no_sep _ _ hs, splitOnCh_no_sep _ _ hg, splitOnCh_no_sep _ _ hx]
  simp

theorem pyLast3_append (L : List α) (a b c : α) :
    pyLast3 (L ++ [a, b, c]) = [a, b, c] := by
  unfold pyLast3
  rw [List.length_append]
  simp


theorem pyStr_no_slash (i : Int) : ∀ ch ∈ (pyStr i).data, ch ≠ '/' := by
  intro ch hch
  unfold pyStr at hch
  split at hch
  · rw [String.data_append] at hch
    rcases List.mem_append.1 hch with h | h
    · simp at h; subst h; decide
    · exact natDigits_no_slash _ _ h
  · exact natDigits_no_slash _ _ hch

theorem zfill_no_slash (w : Nat) (l : List Char) (h : ∀ c ∈ l, c ≠ '/') :
    ∀ c ∈ zfill w l, c ≠ '/' := by
  intro c hc
  rcases List.mem_append.1 hc with h1 | h1
  · rw [List.eq_of_mem_replicate h1]; decide
  · exact h c h1

theorem pyPad3_no_slash (i : Int) : ∀ ch ∈ (pyPad3 i).data, ch ≠ '/' := by
  intro ch hch
  unfold pyPad3 at hch
  split at hch
  · rw [String.data_append] at hch
    rcases List.mem_append.1 hch with h | h
    · simp at h; subst h; decide
    · exact zfill_no_slash _ _ (natDigits_no_slash _) _ h
  · exact zfill_no_slash _ _ (natDigits_no_slash _) _ hch

theorem gridComp_no_slash (g : Int) : ∀ ch ∈ ("grid" ++ pyStr g).data, ch ≠ '/' := by
  intro ch hch
  rw [String.data_append] at hch
  rcases List.mem_append.1 hch with h | h
  · simp at h
    rcases h with rfl | rfl | rfl | rfl <;> decide
  · exact pyStr_no_slash g ch h

theorem xtalComp_no_slash (x : Int) : ∀ ch ∈ ("xtal" ++ pyPad3 x).data, ch ≠ '/' := by
  intro ch hch
  rw [String.data_append] at hch
  rcases List.mem_append.1 hch with h | h
  · simp at h
    rcases h with rfl | rfl | rfl | rfl <;> decide
  · exact pyPad3_no_slash x ch h

theorem gridComp_ne_empty (g : Int) : ("grid" ++ pyStr g) ≠ "" := by
  intro h
  have h2 : ("grid" ++ pyStr g).data = [] := by rw [h]
  rw [String.data_append] at h2
  have := List.append_eq_nil.mp h2
  simpa using this.1

theorem xtalComp_ne_empty (x : Int) : ("xtal" ++ pyPad3 x) ≠ "" := by
  intro h
  have h2 : ("xtal" ++ pyPad3 x).data = [] := by rw [h]
  rw [String.data_append] at h2
  have := List.append_eq_nil.mp h2
  simpa using this.1

theorem ends_false_of_data {t s : String} {pre : List Char}
    (ht : t.data = pre ++ s.data) (hs : s ≠ "") (h : ∀ ch ∈ s.data, ch ≠ '/') :
    strEndsWithSlash t = false := by
  unfold strEndsWithSlash
  rw [ht, getLast?_append_right (string_data_ne_nil hs)]
  cases hl : s.data.getLast? with
  | none => simp
  | some a =>
    have ha := h a (mem_of_getLast?_eq hl)
    simp [ha]

theorem pathJoin2_plain {a : String} (b : String) (ha : a ≠ "")
    (hlast : strEndsWithSlash a = false) : pathJoin2 a b = a ++ "/" ++ b := by
  unfold pathJoin2
  rw [if_neg ha, if_neg (by simp [hlast])]



theorem pathJoin2_base_shape (base sample : String) :
    (pathJoin2 base sample).data = sample.data ∨
    ∃ B, (pathJoin2 base sample).data = (B ++ ['/']) ++ sample.data := by
  unfold pathJoin2
  by_cases hb : base = ""
  · rw [if_pos hb]; exact .inl rfl
  · rw [if_neg hb]
    by_cases he : strEndsWithSlash base = true
    · rw [if_pos he]
      unfold strEndsWithSlash at he
      simp only [decide_eq_true_eq] at he
      have hne : base.data ≠ [] := by
        intro h; rw [h] at he; simp at he
      have hlast : base.data.getLast hne = '/' := by
        rwa [List.getLast?_eq_getLast _ hne, Option.some_inj] at he
      refine .inr ⟨base.data.dropLast, ?_⟩
      rw [String.data_append]
      congr 1
      rw [← hlast]
      exact (List.dropLast_append_getLast hne).symm
    · rw [if_neg he]
      refine .inr ⟨base.data, ?_⟩
      simp [String.data_append]

theorem datasetIdOf_eq (base sample : String) (g x : Int) (hs : sample ≠ "")
    (h2 : ∀ ch ∈ sample.data, ch ≠ '/') :
    datasetIdOf base sample g x = sample ++ "/grid" ++ pyStr g ++ "/xtal" ++ pyPad3 x := by
  have hgns := gridComp_no_slash g
  have hxns := xtalComp_no_slash x
  have hgne := gridComp_ne_empty g
  have hxne := xtalComp_ne_empty x
  -- the shape of the first join
  have hpre : ∃ pre : List Char, (pathJoin2 base sample).data = pre ++ sample.data :=
    match pathJoin2_base_shape base sample with
    | .inl h => ⟨[], by simp [h]⟩
    | .inr ⟨B, h⟩ => ⟨B ++ ['/'], h⟩
  obtain ⟨pre, hpreh⟩ := hpre
  have hj1ne : pathJoin2 base sample ≠ "" := by
    intro h
    have hd := congrArg String.data h
    rw [hpreh] at hd
    simp at hd
    exact string_data_ne_nil hs hd.2
  have hj1ends : strEndsWithSlash (pathJoin2 base sample) = false :=
    ends_false_of_data hpreh hs h2
  have hj2 := pathJoin2_plain ("grid" ++ pyStr g) hj1ne hj1ends
  have hj2data : (pathJoin2 (pathJoin2 base sample) ("grid" ++ pyStr g)).data
      = ((pathJoin2 base sample).data ++ ['/']) ++ ("grid" ++ pyStr g).data := by
    rw [hj2]; simp [String.data_append]
  have hj2ne : pathJoin2 (pathJoin2 base sample) ("grid" ++ pyStr g) ≠ "" := by
    intro h
    have hd := congrArg String.data h
    rw [hj2data] at hd
    simp at hd
  have hj2ends : strEndsWithSlash (pathJoin2 (pathJoin2 base sample) ("grid" ++ pyStr g)) = false :=
    ends_false_of_data hj2data hgne hgns
  have hj3 := pathJoin2_plain ("xtal" ++ pyPad3 x) hj2ne hj2ends
  have hwdata : (workDirOf base sample g x).data
      = (pathJoin2 base sample).data ++
        '/' :: (("grid" ++ pyStr g).data ++ '/' :: ("xtal" ++ pyPad3 x).data) := by
    unfold workDirOf
    rw [hj3]
    simp [String.data_append, hj2data]
  have hsplit : ∃ L : List (List Char),
      splitOnCh '/' (workDirOf base sample g x).data
        = L ++ [sample.data, ("grid" ++ pyStr g).data, ("xtal" ++ pyPad3 x).data] := by
    rcases pathJoin2_base_shape base sample with h | ⟨B, h⟩
    · refine ⟨[], ?_⟩
      rw [hwdata, h]
      rw [splitSlash_triple_nil _ _ _ h2 hgns hxns]
      rfl
    · refine ⟨splitOnCh '/' B, ?_⟩
      rw [hwdata, h]
      rw [show ((B ++ ['/']) ++ sample.data) ++
            '/' :: (("grid" ++ pyStr g).data ++ '/' :: ("xtal" ++ pyPad3 x).data)
          = B ++ '/' :: (sample.data ++
            '/' :: (("grid" ++ pyStr g).data ++ '/' :: ("xtal" ++ pyPad3 x).data)) by
        simp]
      rw [splitSlash_triple _ _ _ _ h2 hgns hxns]
  obtain ⟨L, hL⟩ := hsplit
  unfold datasetIdOf splitSlash
  rw [hL]
  rw [List.map_append]
  rw [show ([sample.data, ("grid" ++ pyStr g).data, ("xtal" ++ pyPad3 x).data].map String.mk)
      = [sample, "grid" ++ pyStr g, "xtal" ++ pyPad3 x] from rfl]
  rw [pyLast3_append]
  apply string_ext
  simp [pyJoin, String.data_append]



theorem containsSub_iff (n : List Char) : ∀ l : List Char,
    containsSub n l = true ↔ n <:+: l := by
  intro l
  induction l with
  | nil =>
    simp [containsSub, List.isEmpty_iff]
  | cons x xs ih =>
    rw [containsSub, Bool.or_eq_true, ih, List.isPrefixOf_iff_prefix,
      List.infix_cons_iff]

theorem containsSub_prefix (n m : List Char) : containsSub n (n ++ m) = true := by
  rw [containsSub_iff]
  exact ⟨[], m, by simp⟩

theorem containsSub_single_eq_false {a : Char} {l : List Char}
    (h : ∀ c ∈ l, c ≠ a) : containsSub [a] l = false := by
  induction l with
  | nil => rfl
  | cons x xs ih =>
    have hx : x ≠ a := h x (by simp)
    rw [containsSub, Bool.or_eq_false_iff]
    refine ⟨?_, ih fun c hc => h c (by simp [hc])⟩
    simp [List.isPrefixOf]
    intro hax
    exact absurd hax.symm hx

theorem formatFixed_chars (w p : Nat) (q : ℚ) :
    ∀ c ∈ formatFixed w p q, c = ' ' ∨ c = '-' ∨ c = '.' ∨
      ∃ d, d < 10 ∧ c = Nat.digitChar d := by
  intro c hc
  unfold formatFixed at hc
  simp only [List.mem_append] at hc
  rcases hc with hc | hc
  · exact .inl (List.eq_of_mem_replicate hc)
  · rcases hc with (hc | hc) | hc
    · split at hc
      · simp at hc; exact .inr (.inl hc)
      · simp at hc
    · refine .inr (.inr (.inr ?_))
      obtain ⟨d, hd, rfl⟩ := natDigitsAux_mem _ _ _ hc
      exact ⟨d, hd, rfl⟩
    · split at hc
      · simp at hc
      · rcases List.mem_cons.1 hc with rfl | hc
        · exact .inr (.inr (.inl rfl))
        · rcases List.mem_append.1 hc with h1 | h1
          · rw [List.eq_of_mem_replicate h1]
            exact .inr (.inr (.inr ⟨0, by omega, rfl⟩))
          · refine .inr (.inr (.inr ?_))
            obtain ⟨d, hd, rfl⟩ := natDigitsAux_mem _ _ _ h1
            exact ⟨d, hd, rfl⟩

theorem formatFixed_no_paren (w p : Nat) (q : ℚ) :
    ∀ c ∈ formatFixed w p q, c ≠ '(' := by
  intro c hc
  rcases formatFixed_chars w p q c hc with rfl | rfl | rfl | ⟨d, hd, rfl⟩
  · decide
  · decide
  · decide
  · exact digitChar_ne_paren hd

theorem fmtUcEntry_no_paren (v e : ℚ) :
    containsSub ['('] (fmtUcEntry v e).data = false := by
  unfold fmtUcEntry
  split
  · exact containsSub_single_eq_false (formatFixed_no_paren 6 2 v)
  · exact containsSub_single_eq_false (formatFixed_no_paren 3 0 (intQ (rndHE v)))



theorem getResult_skipped {ws : Workspace} {ffwsu : ℚ → ℚ → String}
    {fmtRmsd : ℚ → String} {workDir dataset_id : String} {res : DResult}
    {logs : List String}
    (h : getResult ws ffwsu fmtRmsd workDir dataset_id "integrated.expt" "indexed.refl" true
          = .ok (res, logs)) :
    logs = [] ∧ res.output_files = [] ∧
    res.total = (ws.reflTable "indexed.refl").length ∧
    res.indexedCount = ((ws.reflTable "indexed.refl").filter fun r => r.indexedFlag).length ∧
    res.dataset_id = dataset_id := by
  unfold getResult at h
  simp only [eq_self_iff_true, if_true] at h
  split at h
  · simp at h
  · split at h
    · rw [Except.ok.injEq, Prod.mk.injEq] at h
      obtain ⟨hres, hlogs⟩ := h
      subst hres
      subst hlogs
      simp
    · simp at h

theorem intQ_num (i : Int) : (intQ i).num = i := by
  rw [intQ, Rat.divInt_one]
  exact Rat.num_intCast i

theorem summaryLine_zero {r : DResult} (h : r.total = 0) :
    summaryLine r = .error "ZeroDivisionError" := by
  unfold summaryLine pyDiv
  rw [intQ_num, h]
  simp

theorem summaryLine_pos {r : DResult} (h : r.total ≠ 0) :
    ∃ l, summaryLine r = .ok l := by
  unfold summaryLine pyDiv
  rw [intQ_num]
  rw [if_neg (by simpa using h)]
  exact ⟨_, rfl⟩

theorem summaryLine_error {r : DResult} {e : String}
    (h : summaryLine r = .error e) : e = "ZeroDivisionError" := by
  unfold summaryLine at h
  split at h
  · next e' heq =>
    simp at h
    subst h
    unfold pyDiv at heq
    split at heq
    · simp at heq
      exact heq.symm
    · simp at heq
  · simp at h

theorem summaryLoop_mem_zero :
    ∀ (rs : List (Option DResult)) (r : DResult), some r ∈ rs → r.total = 0 →
      summaryLoop rs = .error "ZeroDivisionError" := by
  intro rs
  induction rs with
  | nil => intro r hmem; simp at hmem
  | cons hd tl ih =>
    intro r hmem h0
    cases hd with
    | none =>
      have hmem' : some r ∈ tl := by
        rcases List.mem_cons.1 hmem with heq | h
        · simp at heq
        · exact h
      rw [summaryLoop]
      exact ih r hmem' h0
    | some x =>
      rcases List.mem_cons.1 hmem with heq | hmem'
      · have hx : x = r := by simpa using heq.symm
        subst hx
        rw [summaryLoop, summaryLine_zero h0]
      · rw [summaryLoop]
        cases hsl : summaryLine x with
        | error e => rw [summaryLine_error hsl]
        | ok l => rw [ih r hmem' h0]

theorem summaryLoop_ok :
    ∀ (rs : List (Option DResult)),
      (∀ r : DResult, some r ∈ rs → r.total ≠ 0) →
      ∃ ls, summaryLoop rs = .ok ls ∧
        ls.length = (rs.filter Option.isSome).length := by
  intro rs
  induction rs with
  | nil => intro _; exact ⟨[], rfl, rfl⟩
  | cons hd tl ih =>
    intro h
    cases hd with
    | none =>
      obtain ⟨ls, hls, hlen⟩ := ih fun r hr => h r (by simp [hr])
      exact ⟨ls, by rw [summaryLoop]; exact hls, by simpa using hlen⟩
    | some x =>
      obtain ⟨l, hl⟩ := summaryLine_pos (h x (by simp))
      obtain ⟨ls, hls, hlen⟩ := ih fun r hr => h r (by simp [hr])
      refine ⟨l :: ls, ?_, ?_⟩
      · rw [summaryLoop, hl, hls]
      · simpa using hlen



theorem idxOrDefault_ne_zero (o : Option Int) : idxOrDefault o ≠ 0 := by
  cases o with
  | none => simp [idxOrDefault, truthyInt]
  | some i =>
    by_cases hi : i = 0
    · subst hi; simp [idxOrDefault, truthyInt]
    · simp [idxOrDefault, truthyInt, hi]

theorem mem_insertSorted (le : α → α → Bool) (x a : α) :
    ∀ l, a ∈ insertSorted le x l ↔ a = x ∨ a ∈ l := by
  intro l
  induction l with
  | nil => simp [insertSorted]
  | cons y ys ih =>
    rw [insertSorted]
    split
    · simp [ih]
      tauto
    · simp

theorem mem_pySorted (le : α → α → Bool) (a : α) (l : List α) :
    a ∈ pySorted le l ↔ a ∈ l := by
  have key : ∀ (l acc : List α),
      a ∈ l.foldl (fun acc x => insertSorted le x acc) acc ↔ a ∈ acc ∨ a ∈ l := by
    intro l
    induction l with
    | nil => intro acc; simp
    | cons x xs ih =>
      intro acc
      rw [List.foldl_cons, ih, mem_insertSorted]
      simp
      tauto
  rw [pySorted, key]
  simp

theorem generate_datasets_fields :
    ∀ (ts : List String) (l : List RegDataset), generate_datasets ts = .ok l →
      ∀ d ∈ l, ∃ t, d.grid = idxOrDefault (get_grid t) ∧
        d.xtal = idxOrDefault (get_xtal t) := by
  intro ts
  induction ts with
  | nil =>
    intro l h
    rw [generate_datasets] at h
    simp at h
    subst h
    simp
  | cons t ts ih =>
    intro l h
    rw [generate_datasets] at h
    split at h
    · simp at h
    · split at h
      · simp at h
      · next rest hrest =>
        rw [Except.ok.injEq] at h
        subst h
        intro d hd
        rcases List.mem_cons.1 hd with rfl | hd'
        · exact ⟨t, rfl, rfl⟩
        · exact ih _ hrest d hd'



theorem gatherResults_spec (p : Params) (env : Env) (ws : Workspace) (base : String)
    (dirs0 : List String) (fsOf : Dataset → List String) :
    ∀ (dss : List Dataset) (results : List (Option DResult)),
      gatherResults p env ws base dirs0 fsOf dss = .ok results →
      results.length = dss.length ∧
      ∀ i (hi : i < dss.length),
        ∃ hri : i < results.length,
          (pcall p env ws base dirs0 (fsOf (dss.get ⟨i, hi⟩)) (dss.get ⟨i, hi⟩)).outcome
            = .ok (results.get ⟨i, hri⟩) := by
  intro dss
  induction dss with
  | nil =>
    intro results h
    rw [gatherResults] at h
    simp at h
    subst h
    refine ⟨rfl, ?_⟩
    intro i hi
    simp at hi
  | cons d rest ih =>
    intro results h
    rw [gatherResults] at h
    split at h
    · simp at h
    · next r hr =>
      split at h
      · simp at h
      · next rs hrs =>
        rw [Except.ok.injEq] at h
        subst h
        obtain ⟨hlen, hspec⟩ := ih rs hrs
        refine ⟨by simp [hlen], ?_⟩
        intro i hi
        cases i with
        | zero => exact ⟨by simp, by simpa using hr⟩
        | succ i =>
          obtain ⟨hri, hsp⟩ := hspec i (by simpa using hi)
          refine ⟨by simpa using hri, ?_⟩
          simpa using hsp



theorem runStage_fst (env : Env) (n c : String) (st : PSt) :
    (runStage env n c st).1 = env.run c := by
  unfold runStage
  dsimp only
  split <;> rfl

theorem runStage_cmds (env : Env) (n c : String) (st : PSt) :
    (runStage env n c st).2.cmds = st.cmds ++ [c] := by
  unfold runStage
  dsimp only
  split <;> rfl

theorem runStage_logs (env : Env) (n c : String) (st : PSt) :
    (runStage env n c st).2.logs = st.logs := by
  unfold runStage
  dsimp only
  split <;> rfl

theorem runStage_errs (env : Env) (n c : String) (st : PSt) :
    (runStage env n c st).2.errs = st.errs ++
      (if (env.run c).stderr.isEmpty then []
       else [(n, pyJoin "\n" (env.run c).stderr)]) := by
  unfold runStage
  dsimp only
  split <;> simp

theorem runStage_quiet {env : Env} {c : String} (n : String) (st : PSt)
    (h : (env.run c).stderr = []) :
    runStage env n c st =
      (env.run c, { st with fs := (env.run c).creates ++ st.fs, cmds := st.cmds ++ [c] }) := by
  unfold runStage
  dsimp only
  rw [h]
  simp

theorem runStage_fs_mono (env : Env) (n c : String) (st : PSt) :
    ∀ x ∈ st.fs, x ∈ (runStage env n c st).2.fs := by
  intro x hx
  unfold runStage
  dsimp only
  split <;> simp [hx]

theorem runStage_fs_creates (env : Env) (n c : String) (st : PSt) :
    ∀ x ∈ (env.run c).creates, x ∈ (runStage env n c st).2.fs := by
  intro x hx
  unfold runStage
  dsimp only
  split <;> simp [hx]

theorem maskBlock_disabled {p : Params} (env : Env) (st : PSt)
    (h : truthy p.generate_mask = false) :
    maskBlock p env st = (some "imported.expt", st) := by
  unfold maskBlock
  rw [h]
  simp

theorem maskBlock_enabled_ok {p : Params} {env : Env} (st : PSt)
    (h : truthy p.generate_mask = true)
    (ha : (env.run applyMaskCmd).stderr.isEmpty = true) :
    maskBlock p env st = (some "masked.expt",
      (runStage env "dials.apply_mask.err" applyMaskCmd
        (runStage env "dials.generate_mask.err" (genMaskCmd p) st).2).2) := by
  unfold maskBlock
  rw [h]
  simp only [if_true]
  rw [runStage_fst, ha]
  simp

theorem maskBlock_enabled_fail {p : Params} {env : Env} (st : PSt)
    (h : truthy p.generate_mask = true)
    (ha : (env.run applyMaskCmd).stderr.isEmpty = false) :
    maskBlock p env st = (none,
      (runStage env "dials.apply_mask.err" applyMaskCmd
        (runStage env "dials.generate_mask.err" (genMaskCmd p) st).2).2) := by
  unfold maskBlock
  rw [h]
  simp only [if_true]
  rw [runStage_fst, ha]
  simp

theorem beamBlock_disabled {p : Params} (env : Env) (e : String) (st : PSt)
    (h : p.search_beam = false) :
    beamBlock p env e st = (e, st) := by
  unfold beamBlock
  rw [h]
  simp

theorem beamBlock_enabled {p : Params} (env : Env) (e : String) (st : PSt)
    (h : p.search_beam = true) :
    beamBlock p env e st =
      (if (env.run (beamCmd e)).stderr.isEmpty then "optimised_beam.expt" else e,
       (runStage env "dials.search_beam_position.err" (beamCmd e) st).2) := by
  unfold beamBlock
  rw [h]
  simp only [if_true]
  rw [runStage_fst]

theorem axisBlock_disabled {p : Params} (env : Env) (e : String) (st : PSt)
    (h : truthy p.find_rotation_axis = false) :
    axisBlock p env e st = (e, st) := by
  unfold axisBlock
  rw [h]
  simp

theorem axisBlock_enabled {p : Params} (env : Env) (e : String) (st : PSt)
    (h : truthy p.find_rotation_axis = true) :
    axisBlock p env e st =
      (if (env.run (axisCmd p e)).stderr.isEmpty then "optimised_axis.expt" else e,
       (runStage env "find_rotation_axis.err" (axisCmd p e) st).2) := by
  unfold axisBlock
  rw [h]
  simp only [if_true]
  rw [runStage_fst]

theorem p1Block_disabled {p : Params} (env : Env) (e : String) (st : PSt)
    (h : p.initial_index_P1 = false) :
    p1Block p env e st = (e, st) := by
  unfold p1Block
  rw [h]
  simp

theorem p1Block_enabled {p : Params} (env : Env) (e : String) (st : PSt)
    (h : p.initial_index_P1 = true) :
    p1Block p env e st =
      (if (env.run (indexP1Cmd p e)).stderr.isEmpty then "P1.expt" else e,
       (runStage env "dials.index_P1.err" (indexP1Cmd p e) st).2) := by
  unfold p1Block
  rw [h]
  simp only [if_true]
  rw [runStage_fst]

theorem indexPhase_trivial {p : Params} (env : Env) (e : String) (st : PSt)
    (h : p.spacegroup ∈ ([none, some "P1"] : List (Option String))) :
    indexPhase p env e st = (runStage env "dials.index.err" (indexTrivialCmd p e) st).2 := by
  unfold indexPhase
  rw [if_pos h]

theorem indexPhase_sg {p : Params} (env : Env) (e : String) (st : PSt)
    (h : p.spacegroup ∉ ([none, some "P1"] : List (Option String))) :
    indexPhase p env e st =
      (runStage env "dials.index.err" (indexSgCmd p (p1Block p env e st).1)
        (p1Block p env e st).2).2 := by
  unfold indexPhase
  rw [if_neg h]



theorem frontEnd_import_fail {p : Params} {env : Env} {ds : Dataset} (fs0 : List String)
    (h : (env.run (importCmdOf p ds)).stderr.isEmpty = false) :
    frontEnd p env ds fs0 = .importFailed
      { stImport p env ds fs0 with
        logs := (stImport p env ds fs0).logs ++ [importFailMsg ds] } := by
  unfold frontEnd stImport
  dsimp only
  rw [runStage_fst, h]
  simp

theorem frontEnd_ready {p : Params} {env : Env} {ds : Dataset} {fs0 : List String}
    {e0 : String} {st0 : PSt}
    (himp : (env.run (importCmdOf p ds)).stderr.isEmpty = true)
    (hmb : maskBlock p env (stImport p env ds fs0) = (some e0, st0)) :
    frontEnd p env ds fs0 =
      .ready (axisBlock p env (beamBlock p env e0 (spotsRun p env e0 st0)).1
                (beamBlock p env e0 (spotsRun p env e0 st0)).2).1
             (axisBlock p env (beamBlock p env e0 (spotsRun p env e0 st0)).1
                (beamBlock p env e0 (spotsRun p env e0 st0)).2).2 := by
  unfold frontEnd
  dsimp only
  rw [runStage_fst, himp]
  simp only [if_true]
  rw [show (runStage env "dials.import.err" (importCmdOf p ds) ⟨fs0, [], [], []⟩).2
        = stImport p env ds fs0 from rfl]
  rw [hmb]
  rfl

theorem frontEnd_unbound {p : Params} {env : Env} {ds : Dataset} {fs0 : List String}
    {st0 : PSt}
    (himp : (env.run (importCmdOf p ds)).stderr.isEmpty = true)
    (hmb : maskBlock p env (stImport p env ds fs0) = (none, st0)) :
    frontEnd p env ds fs0 = .unbound st0 := by
  unfold frontEnd
  dsimp only
  rw [runStage_fst, himp]
  simp only [if_true]
  rw [show (runStage env "dials.import.err" (importCmdOf p ds) ⟨fs0, [], [], []⟩).2
        = stImport p env ds fs0 from rfl]
  rw [hmb]

theorem pcall_skip {p : Params} {env : Env} {ws : Workspace} {base : String}
    {dirs0 fs0 : List String} {ds : Dataset}
    (h : "integrated.expt" ∈ fs0) :
    pcall p env ws base dirs0 fs0 ds =
      (match getResult ws env.ffwsu env.fmtRmsd (workDirOf base p.sample ds.grid ds.xtal)
          (datasetIdOf base p.sample ds.grid ds.xtal) "integrated.expt" "indexed.refl" true with
       | .error e =>
         ⟨tryMakedirs dirs0 (workDirOf base p.sample ds.grid ds.xtal),
          ⟨fs0, [], ["Skipping " ++ datasetIdOf base p.sample ds.grid ds.xtal ++
            " as file integrated.expt exists"], []⟩, .error e⟩
       | .ok res =>
         ⟨tryMakedirs dirs0 (workDirOf base p.sample ds.grid ds.xtal),
          ⟨fs0, [], ["Skipping " ++ datasetIdOf base p.sample ds.grid ds.xtal ++
            " as file integrated.expt exists"] ++ res.2, []⟩, .ok (some res.1)⟩) := by
  unfold pcall
  rw [if_pos h]

theorem pcall_import_failed {p : Params} {env : Env} {ws : Workspace} {base : String}
    {dirs0 fs0 : List String} {ds : Dataset} {st : PSt}
    (hskip : "integrated.expt" ∉ fs0)
    (hfe : frontEnd p env ds fs0 = .importFailed st) :
    pcall p env ws base dirs0 fs0 ds =
      ⟨tryMakedirs dirs0 (workDirOf base p.sample ds.grid ds.xtal), st, .ok none⟩ := by
  unfold pcall
  rw [if_neg hskip, hfe]

theorem pcall_unbound {p : Params} {env : Env} {ws : Workspace} {base : String}
    {dirs0 fs0 : List String} {ds : Dataset} {st : PSt}
    (hskip : "integrated.expt" ∉ fs0)
    (hfe : frontEnd p env ds fs0 = .unbound st) :
    pcall p env ws base dirs0 fs0 ds =
      ⟨tryMakedirs dirs0 (workDirOf base p.sample ds.grid ds.xtal), st,
        .error "UnboundLocalError"⟩ := by
  unfold pcall
  rw [if_neg hskip, hfe]

theorem pcall_ready {p : Params} {env : Env} {ws : Workspace} {base : String}
    {dirs0 fs0 : List String} {ds : Dataset} {expt : String} {st : PSt}
    (hskip : "integrated.expt" ∉ fs0)
    (hfe : frontEnd p env ds fs0 = .ready expt st) :
    pcall p env ws base dirs0 fs0 ds =
      ⟨tryMakedirs dirs0 (workDirOf base p.sample ds.grid ds.xtal),
       (backEnd p env ws (workDirOf base p.sample ds.grid ds.xtal)
          (datasetIdOf base p.sample ds.grid ds.xtal) expt st).1,
       (backEnd p env ws (workDirOf base p.sample ds.grid ds.xtal)
          (datasetIdOf base p.sample ds.grid ds.xtal) expt st).2⟩ := by
  unfold pcall
  rw [if_neg hskip, hfe]

theorem backEnd_index_fail {p : Params} {env : Env} {ws : Workspace}
    {wd id expt : String} {st : PSt}
    (h : "indexed.expt" ∉ (indexPhase p env expt st).fs) :
    backEnd p env ws wd id expt st =
      ({ indexPhase p env expt st with
          logs := (indexPhase p env expt st).logs ++
            [id ++ " failed to index in space group " ++ pyOptStr p.spacegroup] },
       .ok none) := by
  unfold backEnd
  rw [if_neg h]

theorem backEnd_rs_fail {p : Params} {env : Env} {ws : Workspace}
    {wd id expt : String} {st : PSt}
    (h1 : "indexed.expt" ∈ (indexPhase p env expt st).fs)
    (h2 : "refined_static.expt" ∉ (afterRefineStatic p env expt st).fs) :
    backEnd p env ws wd id expt st =
      ({ afterRefineStatic p env expt st with
          logs := (afterRefineStatic p env expt st).logs ++
            [id ++ " failed in intitial refinement"] },
       .ok none) := by
  unfold backEnd
  unfold afterRefineStatic at h2 ⊢
  rw [if_pos h1, if_neg h2]

theorem backEnd_sv_fail {p : Params} {env : Env} {ws : Workspace}
    {wd id expt : String} {st : PSt}
    (h1 : "indexed.expt" ∈ (indexPhase p env expt st).fs)
    (h2 : "refined_static.expt" ∈ (afterRefineStatic p env expt st).fs)
    (h3 : "refined.expt" ∉ (afterRefineSv p env expt st).fs) :
    backEnd p env ws wd id expt st =
      ({ afterRefineSv p env expt st with
          logs := (afterRefineSv p env expt st).logs ++
            [id ++ " failed in scan varying refinement"] },
       .ok none) := by
  unfold backEnd
  unfold afterRefineStatic at h2
  unfold afterRefineSv afterRefineStatic at h3
  unfold afterRefineSv afterRefineStatic
  rw [if_pos h1, if_pos h2, if_neg h3]

theorem backEnd_int_fail {p : Params} {env : Env} {ws : Workspace}
    {wd id expt : String} {st : PSt}
    (h1 : "indexed.expt" ∈ (indexPhase p env expt st).fs)
    (h2 : "refined_static.expt" ∈ (afterRefineStatic p env expt st).fs)
    (h3 : "refined.expt" ∈ (afterRefineSv p env expt st).fs)
    (h4 : "integrated.expt" ∉ (afterIntegrate p env expt st).fs) :
    backEnd p env ws wd id expt st =
      ({ afterIntegrate p env expt st with
          logs := (afterIntegrate p env expt st).logs ++
            [id ++ " failed in integration"] },
       .ok none) := by
  unfold backEnd
  unfold afterRefineStatic at h2
  unfold afterRefineSv afterRefineStatic at h3
  unfold afterIntegrate afterRefineSv afterRefineStatic at h4
  unfold afterIntegrate afterRefineSv afterRefineStatic
  rw [if_pos h1, if_pos h2, if_pos h3, if_neg h4]

theorem backEnd_success {p : Params} {env : Env} {ws : Workspace}
    {wd id expt : String} {st : PSt}
    (h1 : "indexed.expt" ∈ (indexPhase p env expt st).fs)
    (h2 : "refined_static.expt" ∈ (afterRefineStatic p env expt st).fs)
    (h3 : "refined.expt" ∈ (afterRefineSv p env expt st).fs)
    (h4 : "integrated.expt" ∈ (afterIntegrate p env expt st).fs) :
    backEnd p env ws wd id expt st =
      (match getResult ws env.ffwsu env.fmtRmsd wd id "integrated.expt" "indexed.refl" false with
       | .error e => (afterIntegrate p env expt st, .error e)
       | .ok res => ({ afterIntegrate p env expt st with
                        logs := (afterIntegrate p env expt st).logs ++ res.2 },
                     .ok (some res.1))) := by
  unfold backEnd
  unfold afterRefineStatic at h2
  unfold afterRefineSv afterRefineStatic at h3
  unfold afterIntegrate afterRefineSv afterRefineStatic at h4
  unfold afterIntegrate afterRefineSv afterRefineStatic
  rw [if_pos h1, if_pos h2, if_pos h3, if_pos h4]


/-! ## Claims -/


/-- C10: the summary computes the indexed percentage as
`100*indexed/total` with no guard for `total = 0`: every collected Dataset
Result with at least one observation gets a well-defined summary line,
while a result with zero observations makes the division raise
`ZeroDivisionError`, so the summary loop aborts instead of completing. -/
theorem claim_C10 :
    (∀ r : DResult, 1 ≤ r.total → ∃ l, summaryLine r = .ok l) ∧
    (∀ r : DResult, r.total = 0 → summaryLine r = .error "ZeroDivisionError") ∧
    (∀ (rs : List (Option DResult)) (r : DResult), some r ∈ rs → r.total = 0 →
      summaryLoop rs = .error "ZeroDivisionError") :=
  ⟨fun _ h => summaryLine_pos (by omega),
   fun _ h => summaryLine_zero h,
   fun rs r hm h0 => summaryLoop_mem_zero rs r hm h0⟩

theorem claim_C10_witness :
    (∃ l, summaryLine resT2 = .ok l) ∧
    summaryLine resT0 = .error "ZeroDivisionError" ∧
    summaryLoop [some resT2, some resT0] = .error "ZeroDivisionError" :=
  ⟨claim_C10.1 resT2 (by decide),
   claim_C10.2.1 resT0 rfl,
   claim_C10.2.2 [some resT2, some resT0] resT0 (by simp) rfl⟩

/-- C9 (amended): every descriptor produced by the registry builder has a
*nonzero* grid index and a nonzero crystal index — an index that is
missing, unparseable, or parses to `0` defaults to `1`; but a filename
encoding a parsable negative index (e.g. `xtal-5`) is carried through
verbatim, so positivity does not hold. -/
theorem claim_C9 (ts : List String) (dss : List RegDataset)
    (h : generate_datasets_sorted ts = .ok dss) :
    ∀ d ∈ dss, d.grid ≠ 0 ∧ d.xtal ≠ 0 := by
  intro d hd
  unfold generate_datasets_sorted at h
  split at h
  · simp at h
  · next l hl =>
    rw [Except.ok.injEq] at h
    subst h
    rw [mem_pySorted] at hd
    obtain ⟨t, hg, hx⟩ := generate_datasets_fields ts l hl d hd
    rw [hg, hx]
    exact ⟨idxOrDefault_ne_zero _, idxOrDefault_ne_zero _⟩

theorem claim_C9_cex :
    generate_datasets_sorted ["grid1/a_xtal-5_0000.mrc"] = .ok [regCex] ∧
    regCex.xtal = -5 ∧ ¬ (0 < regCex.xtal) := by
  refine ⟨by decide, by decide, by decide⟩

theorem claim_C9_witness : regCex.grid ≠ 0 ∧ regCex.xtal ≠ 0 :=
  claim_C9 ["grid1/a_xtal-5_0000.mrc"] [regCex] (by decide) regCex (by simp)

/-- C8 (amended): the unit-cell entries stored in a Dataset Result never
contain a parenthesised uncertainty: the `value(uncertainty)` rendering is
only used for the success log line (external
`format_float_with_standard_uncertainty`), while the result's `uc` field
holds the plain `{v:6.2f}` rendering when the uncertainty exceeds `1e-5`
and the integer-rounded `{round(v,0):3.0f}` rendering otherwise. -/
theorem claim_C8 (v e : ℚ) :
    containsSub ['('] (fmtUcEntry v e).data = false ∧
    (Rat.blt (Rat.divInt 1 100000) e = false →
      fmtUcEntry v e = String.mk (formatFixed 3 0 (intQ (rndHE v)))) := by
  refine ⟨fmtUcEntry_no_paren v e, fun h => ?_⟩
  unfold fmtUcEntry
  rw [h]
  simp

theorem claim_C8_cex :
    (pcall pBase envQuiet wsBase "/data" [] ["integrated.expt"] dsBase).outcome =
      .ok (some skipResult) ∧
    skipResult.uc = [" 10.00"] ∧
    containsSub ['('] (" 10.00" : String).data = false ∧
    Rat.blt (Rat.divInt 1 100000) (Rat.divInt 2 100000) = true := by
  refine ⟨by decide, by decide, by decide, by decide⟩

theorem claim_C8_witness :
    Rat.blt (Rat.divInt 1 100000) (intQ 0) = false ∧
    containsSub ['('] (fmtUcEntry (intQ 0) (intQ 0)).data = false ∧
    fmtUcEntry (intQ 0) (intQ 0) = "  0" :=
  ⟨by decide, (claim_C8 (intQ 0) (intQ 0)).1,
   ((claim_C8 (intQ 0) (intQ 0)).2 (by decide)).trans (by decide)⟩

/-- C1 (amended): for a workspace already containing `integrated.expt`,
`process` invokes no external stage, writes no error file, logs only the
skip line (no success line), and returns a result in skipped mode whose
output-file list is empty; its metrics, however, are computed afresh from
the existing `integrated.expt`/`indexed.refl` artifacts, not zero-filled. -/
theorem claim_C1 (p : Params) (env : Env) (ws : Workspace) (base : String)
    (dirs0 fs0 : List String) (ds : Dataset)
    (h : "integrated.expt" ∈ fs0) :
    (pcall p env ws base dirs0 fs0 ds).st.cmds = [] ∧
    (pcall p env ws base dirs0 fs0 ds).st.errs = [] ∧
    (pcall p env ws base dirs0 fs0 ds).st.logs =
      ["Skipping " ++ datasetIdOf base p.sample ds.grid ds.xtal ++
        " as file integrated.expt exists"] ∧
    (∀ r : DResult, (pcall p env ws base dirs0 fs0 ds).outcome = .ok (some r) →
      r.output_files = [] ∧
      r.total = (ws.reflTable "indexed.refl").length ∧
      r.indexedCount =
        ((ws.reflTable "indexed.refl").filter fun x => x.indexedFlag).length) := by
  rw [pcall_skip h]
  split
  · exact ⟨rfl, rfl, rfl, fun r hr => by simp at hr⟩
  · next res heq =>
    obtain ⟨hl, ho, ht, hi, hid⟩ := getResult_skipped
      (show _ = Except.ok (res.1, res.2) from heq)
    refine ⟨rfl, rfl, by simp [hl], ?_⟩
    intro r hr
    rw [Except.ok.injEq, Option.some.injEq] at hr
    subst hr
    exact ⟨ho, ht, hi⟩

theorem claim_C1_cex :
    "integrated.expt" ∈ (["integrated.expt"] : List String) ∧
    (pcall pBase envQuiet wsBase "/data" [] ["integrated.expt"] dsBase).st.cmds = [] ∧
    (pcall pBase envQuiet wsBase "/data" [] ["integrated.expt"] dsBase).outcome =
      .ok (some skipResult) ∧
    skipResult.output_files = [] ∧
    skipResult.total = 1 ∧ skipResult.indexedCount = 1 ∧ skipResult.rmsds = "R R R" := by
  refine ⟨by decide, by decide, by decide, by decide, by decide, by decide, by decide⟩

theorem claim_C1_witness :
    (pcall pBase envQuiet wsBase "/data" [] ["integrated.expt"] dsBase).st.cmds = [] ∧
    skipResult.output_files = [] ∧
    skipResult.total = (wsBase.reflTable "indexed.refl").length :=
  ⟨(claim_C1 pBase envQuiet wsBase "/data" [] ["integrated.expt"] dsBase (by simp)).1,
   ((claim_C1 pBase envQuiet wsBase "/data" [] ["integrated.expt"] dsBase
      (by simp)).2.2.2 skipResult (by decide)).1,
   ((claim_C1 pBase envQuiet wsBase "/data" [] ["integrated.expt"] dsBase
      (by simp)).2.2.2 skipResult (by decide)).2.1⟩



theorem containsSub_str_prefix (a b : String) : containsSub a.data (a ++ b).data = true := by
  rw [String.data_append]
  exact containsSub_prefix _ _

/-- C4 (amended): every fatal stage whose terminal condition fires makes
`process` return `.ok none` (no exception), log exactly one stage-specific
reason line, and invoke no further stage.  For indexing, static
refinement, scan-varying refinement and integration the reason contains
the dataset identifier; for import, however, the logged reason names the
file locator (`import of <template> failed!`), not the dataset
identifier. -/
theorem claim_C4 (p : Params) (env : Env) (ws : Workspace) (base : String)
    (dirs0 fs0 : List String) (ds : Dataset) (expt : String) (st : PSt)
    (hskip : "integrated.expt" ∉ fs0) :
    ((env.run (importCmdOf p ds)).stderr.isEmpty = false →
      (pcall p env ws base dirs0 fs0 ds).outcome = .ok none ∧
      (pcall p env ws base dirs0 fs0 ds).st.cmds = [importCmdOf p ds] ∧
      (pcall p env ws base dirs0 fs0 ds).st.logs = [importFailMsg ds]) ∧
    (frontEnd p env ds fs0 = .ready expt st →
      ("indexed.expt" ∉ (indexPhase p env expt st).fs →
        (pcall p env ws base dirs0 fs0 ds).outcome = .ok none ∧
        (pcall p env ws base dirs0 fs0 ds).st.cmds = (indexPhase p env expt st).cmds ∧
        (pcall p env ws base dirs0 fs0 ds).st.logs = (indexPhase p env expt st).logs ++
          [datasetIdOf base p.sample ds.grid ds.xtal ++
            " failed to index in space group " ++ pyOptStr p.spacegroup] ∧
        containsSub (datasetIdOf base p.sample ds.grid ds.xtal).data
          (datasetIdOf base p.sample ds.grid ds.xtal ++
            " failed to index in space group " ++ pyOptStr p.spacegroup).data = true) ∧
      ("indexed.expt" ∈ (indexPhase p env expt st).fs →
        "refined_static.expt" ∉ (afterRefineStatic p env expt st).fs →
        (pcall p env ws base dirs0 fs0 ds).outcome = .ok none ∧
        (pcall p env ws base dirs0 fs0 ds).st.cmds = (afterRefineStatic p env expt st).cmds ∧
        (pcall p env ws base dirs0 fs0 ds).st.logs = (afterRefineStatic p env expt st).logs ++
          [datasetIdOf base p.sample ds.grid ds.xtal ++ " failed in intitial refinement"] ∧
        containsSub (datasetIdOf base p.sample ds.grid ds.xtal).data
          (datasetIdOf base p.sample ds.grid ds.xtal ++
            " failed in intitial refinement").data = true) ∧
      ("indexed.expt" ∈ (indexPhase p env expt st).fs →
        "refined_static.expt" ∈ (afterRefineStatic p env expt st).fs →
        "refined.expt" ∉ (afterRefineSv p env expt st).fs →
        (pcall p env ws base dirs0 fs0 ds).outcome = .ok none ∧
        (pcall p env ws base dirs0 fs0 ds).st.cmds = (afterRefineSv p env expt st).cmds ∧
        (pcall p env ws base dirs0 fs0 ds).st.logs = (afterRefineSv p env expt st).logs ++
          [datasetIdOf base p.sample ds.grid ds.xtal ++ " failed in scan varying refinement"] ∧
        containsSub (datasetIdOf base p.sample ds.grid ds.xtal).data
          (datasetIdOf base p.sample ds.grid ds.xtal ++
            " failed in scan varying refinement").data = true) ∧
      ("indexed.expt" ∈ (indexPhase p env expt st).fs →
        "refined_static.expt" ∈ (afterRefineStatic p env expt st).fs →
        "refined.expt" ∈ (afterRefineSv p env expt st).fs →
        "integrated.expt" ∉ (afterIntegrate p env expt st).fs →
        (pcall p env ws base dirs0 fs0 ds).outcome = .ok none ∧
        (pcall p env ws base dirs0 fs0 ds).st.cmds = (afterIntegrate p env expt st).cmds ∧
        (pcall p env ws base dirs0 fs0 ds).st.logs = (afterIntegrate p env expt st).logs ++
          [datasetIdOf base p.sample ds.grid ds.xtal ++ " failed in integration"] ∧
        containsSub (datasetIdOf base p.sample ds.grid ds.xtal).data
          (datasetIdOf base p.sample ds.grid ds.xtal ++ " failed in integration").data
            = true)) := by
  constructor
  · intro himp
    rw [pcall_import_failed hskip (frontEnd_import_fail fs0 himp)]
    refine ⟨rfl, ?_, ?_⟩
    · show (stImport p env ds fs0).cmds = [importCmdOf p ds]
      unfold stImport
      rw [runStage_cmds]
      simp
    · show (stImport p env ds fs0).logs ++ [importFailMsg ds] = [importFailMsg ds]
      unfold stImport
      rw [runStage_logs]
      simp
  · intro hfe
    refine ⟨fun h1 => ?_, fun h1 h2 => ?_, fun h1 h2 h3 => ?_, fun h1 h2 h3 h4 => ?_⟩
    · rw [pcall_ready hskip hfe, backEnd_index_fail h1]
      exact ⟨rfl, rfl, rfl, by
        rw [show datasetIdOf base p.sample ds.grid ds.xtal ++
              " failed to index in space group " ++ pyOptStr p.spacegroup
            = datasetIdOf base p.sample ds.grid ds.xtal ++
              (" failed to index in space group " ++ pyOptStr p.spacegroup) by
          apply string_ext; simp [String.data_append]]
        exact containsSub_str_prefix _ _⟩
    · rw [pcall_ready hskip hfe, backEnd_rs_fail h1 h2]
      exact ⟨rfl, rfl, rfl, containsSub_str_prefix _ _⟩
    · rw [pcall_ready hskip hfe, backEnd_sv_fail h1 h2 h3]
      exact ⟨rfl, rfl, rfl, containsSub_str_prefix _ _⟩
    · rw [pcall_ready hskip hfe, backEnd_int_fail h1 h2 h3 h4]
      exact ⟨rfl, rfl, rfl, containsSub_str_prefix _ _⟩

theorem claim_C4_cex :
    (pcall pBase envImportFail wsBase "/data" [] [] dsBase).outcome = .ok none ∧
    (pcall pBase envImportFail wsBase "/data" [] [] dsBase).st.logs =
      ["import of a_####.img failed!"] ∧
    (pcall pBase envImportFail wsBase "/data" [] [] dsBase).st.cmds =
      ["dials.import template=../../../a_####.img o"] ∧
    datasetIdOf "/data" "S" 1 1 = "S/grid1/xtal001" ∧
    containsSub (datasetIdOf "/data" "S" 1 1).data
      ("import of a_####.img failed!" : String).data = false := by
  refine ⟨by decide, by decide, by decide, by decide, by decide⟩

theorem claim_C4_witness :
    ((envImportFail.run (importCmdOf pBase dsBase)).stderr.isEmpty = false) ∧
    (pcall pBase envImportFail wsBase "/data" [] [] dsBase).outcome = .ok none ∧
    (pcall pBase envImportFail wsBase "/data" [] [] dsBase).st.cmds =
      [importCmdOf pBase dsBase] ∧
    (pcall pBase envQuiet wsBase "/data" [] [] dsBase).outcome = .ok none :=
  ⟨by decide,
   ((claim_C4 pBase envImportFail wsBase "/data" [] [] dsBase "imported.expt"
      ⟨[], [], [], []⟩ (by simp)).1 (by decide)).1,
   ((claim_C4 pBase envImportFail wsBase "/data" [] [] dsBase "imported.expt"
      ⟨[], [], [], []⟩ (by simp)).1 (by decide)).2.1,
   (((claim_C4 pBase envQuiet wsBase "/data" [] [] dsBase "imported.expt"
      stC4 (by simp)).2 (by decide)).1 (by decide)).1⟩



theorem backEnd_cmds_prefix (p : Params) (env : Env) (ws : Workspace)
    (wd id expt : String) (st : PSt) :
    ∃ suffix : List String, (backEnd p env ws wd id expt st).1.cmds =
      (indexPhase p env expt st).cmds ++ suffix := by
  unfold backEnd
  dsimp only
  split
  · split
    · split
      · split
        · split
          · exact ⟨[refineStaticCmd p, refineSvCmd p, integrateCmd p],
              by simp [runStage_cmds]⟩
          · exact ⟨[refineStaticCmd p, refineSvCmd p, integrateCmd p],
              by simp [runStage_cmds]⟩
        · exact ⟨[refineStaticCmd p, refineSvCmd p, integrateCmd p],
            by simp [runStage_cmds]⟩
      · exact ⟨[refineStaticCmd p, refineSvCmd p], by simp [runStage_cmds]⟩
    · exact ⟨[refineStaticCmd p], by simp [runStage_cmds]⟩
  · exact ⟨[], by simp⟩

/-- C2 (amended): for the optional stages the decision to switch the
current artifact is made solely from the *diagnostic stream*, not from the
output artifact: beam search, rotation-axis search and the P1 pre-index
switch exactly when their stderr was empty, whatever files were created;
and with masking enabled a non-empty `dials.apply_mask` diagnostic leaves
the artifact variable unassigned so the dataset crashes with
`UnboundLocalError` instead of keeping the prior artifact.  Under the
beam-only configuration the indexing command's input artifact is exactly
the diagnostics-determined choice. -/
theorem claim_C2 (p : Params) (env : Env) (ws : Workspace) (base : String)
    (dirs0 fs0 : List String) (ds : Dataset)
    (hskip : "integrated.expt" ∉ fs0)
    (himp : (env.run (importCmdOf p ds)).stderr.isEmpty = true) :
    (∀ (e : String) (st : PSt), p.search_beam = true →
      (beamBlock p env e st).1 =
        (if (env.run (beamCmd e)).stderr.isEmpty then "optimised_beam.expt" else e)) ∧
    (∀ (e : String) (st : PSt), truthy p.find_rotation_axis = true →
      (axisBlock p env e st).1 =
        (if (env.run (axisCmd p e)).stderr.isEmpty then "optimised_axis.expt" else e)) ∧
    (∀ (e : String) (st : PSt), p.initial_index_P1 = true →
      (p1Block p env e st).1 =
        (if (env.run (indexP1Cmd p e)).stderr.isEmpty then "P1.expt" else e)) ∧
    (truthy p.generate_mask = true →
      (env.run applyMaskCmd).stderr.isEmpty = false →
      (pcall p env ws base dirs0 fs0 ds).outcome = .error "UnboundLocalError") ∧
    (truthy p.generate_mask = false → p.search_beam = true →
      truthy p.find_rotation_axis = false →
      p.spacegroup ∈ ([none, some "P1"] : List (Option String)) →
      ∃ suffix : List String, (pcall p env ws base dirs0 fs0 ds).st.cmds =
        [importCmdOf p ds, findSpotsCmd p "imported.expt", beamCmd "imported.expt",
         indexTrivialCmd p (if (env.run (beamCmd "imported.expt")).stderr.isEmpty
           then "optimised_beam.expt" else "imported.expt")] ++ suffix) := by
  refine ⟨?_, ?_, ?_, ?_, ?_⟩
  · intro e st hb
    rw [beamBlock_enabled env e st hb]
  · intro e st hx
    rw [axisBlock_enabled env e st hx]
  · intro e st hp
    rw [p1Block_enabled env e st hp]
  · intro hm ha
    have hmb := maskBlock_enabled_fail (stImport p env ds fs0) hm ha
    rw [pcall_unbound hskip (frontEnd_unbound himp hmb)]
  · intro hm hb hx hsg
    have hmb := maskBlock_disabled env (stImport p env ds fs0) hm
    have hfe := frontEnd_ready himp hmb
    rw [beamBlock_enabled env "imported.expt"
      (spotsRun p env "imported.expt" (stImport p env ds fs0)) hb] at hfe
    dsimp only at hfe
    rw [axisBlock_disabled env _ _ hx] at hfe
    rw [pcall_ready hskip hfe]
    obtain ⟨suffix, hsuf⟩ := backEnd_cmds_prefix p env ws
      (workDirOf base p.sample ds.grid ds.xtal)
      (datasetIdOf base p.sample ds.grid ds.xtal) _ _
    refine ⟨suffix, ?_⟩
    rw [show (⟨tryMakedirs dirs0 (workDirOf base p.sample ds.grid ds.xtal),
        (backEnd p env ws (workDirOf base p.sample ds.grid ds.xtal)
          (datasetIdOf base p.sample ds.grid ds.xtal) _ _).1,
        (backEnd p env ws (workDirOf base p.sample ds.grid ds.xtal)
          (datasetIdOf base p.sample ds.grid ds.xtal) _ _).2⟩ : CallOut).st =
      (backEnd p env ws (workDirOf base p.sample ds.grid ds.xtal)
        (datasetIdOf base p.sample ds.grid ds.xtal) _ _).1 from rfl]
    rw [hsuf]
    rw [indexPhase_trivial _ _ _ hsg, runStage_cmds]
    unfold spotsRun stImport
    rw [runStage_cmds, runStage_cmds, runStage_cmds]
    simp

theorem claim_C2_cex :
    (pcall pBeam envBeamNoisy wsBase "/data" [] [] dsBase).st.cmds =
      ["dials.import template=../../../a_####.img o",
       "dials.find_spots imported.expt fs nproc=4",
       "dials.search_beam_position imported.expt strong.refl output.experiments=optimised_beam.expt",
       "dials.index imported.expt strong.refl ix"] ∧
    "optimised_beam.expt" ∈ (pcall pBeam envBeamNoisy wsBase "/data" [] [] dsBase).st.fs ∧
    (envBeamNoisy.run (beamCmd "imported.expt")).creates = ["optimised_beam.expt"] ∧
    (envBeamNoisy.run (beamCmd "imported.expt")).stderr = ["warning"] := by
  refine ⟨by decide, by decide, by decide, by decide⟩

theorem claim_C2_witness :
    (∃ suffix : List String,
      (pcall pBeam envBeamNoisy wsBase "/data" [] [] dsBase).st.cmds =
        [importCmdOf pBeam dsBase, findSpotsCmd pBeam "imported.expt",
         beamCmd "imported.expt", indexTrivialCmd pBeam "imported.expt"] ++ suffix) ∧
    (pcall pMask envMaskNoisy wsBase "/data" [] [] dsBase).outcome =
      .error "UnboundLocalError" := by
  constructor
  · obtain ⟨sfx, hs⟩ := (claim_C2 pBeam envBeamNoisy wsBase "/data" [] [] dsBase
      (by simp) (by decide)).2.2.2.2 (by decide) (by decide) (by decide) (by decide)
    have hif : (if (envBeamNoisy.run (beamCmd "imported.expt")).stderr.isEmpty
        then "optimised_beam.expt" else "imported.expt") = "imported.expt" := by decide
    rw [hif] at hs
    exact ⟨sfx, hs⟩
  · exact (claim_C2 pMask envMaskNoisy wsBase "/data" [] [] dsBase
      (by simp) (by decide)).2.2.2.1 (by decide) (by decide)



/-- C6 (amended): indexing branches as specced — one trivial-group pass
when no (or the trivial) space group is configured, otherwise an optional
P1 seed pass followed by the constrained pass, and the dataset aborts at
the indexing gate iff `indexed.expt` is absent afterwards — except that
the P1 pass's output name replaces the current artifact exactly when the
pass emitted no diagnostics, whether or not `P1.expt` was produced. -/
theorem claim_C6 (p : Params) (env : Env) (ws : Workspace) (base : String)
    (dirs0 fs0 : List String) (ds : Dataset) (expt : String) (st : PSt)
    (hskip : "integrated.expt" ∉ fs0)
    (hfe : frontEnd p env ds fs0 = .ready expt st) :
    (p.spacegroup ∈ ([none, some "P1"] : List (Option String)) →
      (indexPhase p env expt st).cmds = st.cmds ++ [indexTrivialCmd p expt]) ∧
    (p.spacegroup ∉ ([none, some "P1"] : List (Option String)) →
      p.initial_index_P1 = true →
      (indexPhase p env expt st).cmds = st.cmds ++
        [indexP1Cmd p expt,
         indexSgCmd p (if (env.run (indexP1Cmd p expt)).stderr.isEmpty
           then "P1.expt" else expt)]) ∧
    (p.spacegroup ∉ ([none, some "P1"] : List (Option String)) →
      p.initial_index_P1 = false →
      (indexPhase p env expt st).cmds = st.cmds ++ [indexSgCmd p expt]) ∧
    ("indexed.expt" ∉ (indexPhase p env expt st).fs →
      (pcall p env ws base dirs0 fs0 ds).outcome = .ok none ∧
      (pcall p env ws base dirs0 fs0 ds).st.cmds = (indexPhase p env expt st).cmds) ∧
    ("indexed.expt" ∈ (indexPhase p env expt st).fs →
      refineStaticCmd p ∈ (pcall p env ws base dirs0 fs0 ds).st.cmds) := by
  refine ⟨?_, ?_, ?_, ?_, ?_⟩
  · intro hsg
    rw [indexPhase_trivial _ _ _ hsg, runStage_cmds]
  · intro hsg hp1
    rw [indexPhase_sg _ _ _ hsg, p1Block_enabled _ _ _ hp1]
    dsimp only
    rw [runStage_cmds, runStage_cmds]
    simp
  · intro hsg hp1
    rw [indexPhase_sg _ _ _ hsg, p1Block_disabled _ _ _ hp1]
    rw [runStage_cmds]
  · intro h1
    rw [pcall_ready hskip hfe, backEnd_index_fail h1]
    exact ⟨rfl, rfl⟩
  · intro h1
    rw [pcall_ready hskip hfe]
    show refineStaticCmd p ∈ (backEnd p env ws (workDirOf base p.sample ds.grid ds.xtal)
      (datasetIdOf base p.sample ds.grid ds.xtal) expt st).1.cmds
    unfold backEnd
    dsimp only
    rw [if_pos h1]
    split
    · split
      · split
        · split <;> simp [runStage_cmds]
        · simp [runStage_cmds]
      · simp [runStage_cmds]
    · simp [runStage_cmds]

theorem claim_C6_cex :
    (pcall pP2 envQuiet wsBase "/data" [] [] dsBase).st.cmds =
      ["dials.import template=../../../a_####.img o",
       "dials.find_spots imported.expt fs nproc=4",
       "dials.index imported.expt strong.refl ix output.experiments=P1.expt output.reflections=P1.refl output.log=dials.index_P1.log",
       "dials.index P1.expt strong.refl ix space_group=P2"] ∧
    ¬ "P1.expt" ∈ (pcall pP2 envQuiet wsBase "/data" [] [] dsBase).st.fs ∧
    (envQuiet.run (indexP1Cmd pP2 "imported.expt")).creates = [] := by
  refine ⟨by decide, by decide, by decide⟩

theorem claim_C6_witness :
    (indexPhase pP2 envQuiet "imported.expt" stC4).cmds = stC4.cmds ++
      [indexP1Cmd pP2 "imported.expt",
       indexSgCmd pP2 (if (envQuiet.run (indexP1Cmd pP2 "imported.expt")).stderr.isEmpty
         then "P1.expt" else "imported.expt")] ∧
    (pcall pP2 envQuiet wsBase "/data" [] [] dsBase).outcome = .ok none :=
  ⟨(claim_C6 pP2 envQuiet wsBase "/data" [] [] dsBase "imported.expt" stC4
      (by simp) (by decide)).2.1 (by decide) rfl,
   ((claim_C6 pP2 envQuiet wsBase "/data" [] [] dsBase "imported.expt" stC4
      (by simp) (by decide)).2.2.2.1 (by decide)).1⟩



/-- C3 (amended): each stage writes its diagnostics to its error file
exactly when the diagnostic stream is non-empty, with the full contents
joined by newlines; the file names are stage-specific but the rotation-axis
stage's file is `find_rotation_axis.err` (not `<command>.err`).  A
non-empty diagnostic stream aborts the dataset for import (returning no
result), and — unlike the spec's account — also for mask application when
masking is enabled (an uncaught `UnboundLocalError`); for spot finding,
beam search, axis search, indexing, refinement and integration it never
aborts by itself: the pipeline still reaches the integration command. -/
theorem claim_C3 (p : Params) (env : Env) (ws : Workspace) (base : String)
    (dirs0 fs0 : List String) (ds : Dataset) :
    (∀ (n c : String) (st : PSt),
      (runStage env n c st).2.errs = st.errs ++
        (if (env.run c).stderr.isEmpty then []
         else [(n, pyJoin "\n" (env.run c).stderr)])) ∧
    ((env.run (importCmdOf p ds)).stderr.isEmpty = false →
      "integrated.expt" ∉ fs0 →
      (pcall p env ws base dirs0 fs0 ds).outcome = .ok none ∧
      (pcall p env ws base dirs0 fs0 ds).st.errs =
        [("dials.import.err", pyJoin "\n" (env.run (importCmdOf p ds)).stderr)]) ∧
    (truthy p.generate_mask = true →
      (env.run (importCmdOf p ds)).stderr.isEmpty = true →
      (env.run applyMaskCmd).stderr.isEmpty = false →
      "integrated.expt" ∉ fs0 →
      (pcall p env ws base dirs0 fs0 ds).outcome = .error "UnboundLocalError" ∧
      ("dials.apply_mask.err", pyJoin "\n" (env.run applyMaskCmd).stderr) ∈
        (pcall p env ws base dirs0 fs0 ds).st.errs) ∧
    (truthy p.generate_mask = false → p.search_beam = true →
      truthy p.find_rotation_axis = true →
      p.spacegroup ∈ ([none, some "P1"] : List (Option String)) →
      "integrated.expt" ∉ fs0 →
      (env.run (importCmdOf p ds)).stderr.isEmpty = true →
      (env.run (beamCmd "imported.expt")).stderr.isEmpty = false →
      (env.run (axisCmd p "imported.expt")).stderr.isEmpty = false →
      "indexed.expt" ∈ (env.run (indexTrivialCmd p "imported.expt")).creates →
      "refined_static.expt" ∈ (env.run (refineStaticCmd p)).creates →
      "refined.expt" ∈ (env.run (refineSvCmd p)).creates →
      integrateCmd p ∈ (pcall p env ws base dirs0 fs0 ds).st.cmds) := by
  refine ⟨fun n c st => runStage_errs env n c st, ?_, ?_, ?_⟩
  · intro himp hskip
    rw [pcall_import_failed hskip (frontEnd_import_fail fs0 himp)]
    refine ⟨rfl, ?_⟩
    show (stImport p env ds fs0).errs = _
    unfold stImport
    rw [runStage_errs, if_neg (by simp [himp])]
    simp
  · intro hm himp ha hskip
    have hmb := maskBlock_enabled_fail (stImport p env ds fs0) hm ha
    rw [pcall_unbound hskip (frontEnd_unbound himp hmb)]
    refine ⟨rfl, ?_⟩
    show _ ∈ (runStage env "dials.apply_mask.err" applyMaskCmd
      (runStage env "dials.generate_mask.err" (genMaskCmd p) (stImport p env ds fs0)).2).2.errs
    rw [runStage_errs, if_neg (by simp [ha])]
    simp
  · intro hm hb hx hsg hskip himp hbs hxs hc1 hc2 hc3
    have hmb := maskBlock_disabled env (stImport p env ds fs0) hm
    have hfe := frontEnd_ready himp hmb
    rw [beamBlock_enabled env "imported.expt"
      (spotsRun p env "imported.expt" (stImport p env ds fs0)) hb] at hfe
    dsimp only at hfe
    rw [hbs] at hfe
    simp only [Bool.false_eq_true, if_false] at hfe
    rw [axisBlock_enabled env "imported.expt" _ hx] at hfe
    dsimp only at hfe
    rw [hxs] at hfe
    simp only [Bool.false_eq_true, if_false] at hfe
    rw [pcall_ready hskip hfe]
    have h1 : "indexed.expt" ∈ (indexPhase p env "imported.expt"
        (runStage env "find_rotation_axis.err" (axisCmd p "imported.expt")
          (runStage env "dials.search_beam_position.err" (beamCmd "imported.expt")
            (spotsRun p env "imported.expt" (stImport p env ds fs0))).2).2).fs := by
      rw [indexPhase_trivial _ _ _ hsg]
      exact runStage_fs_creates _ _ _ _ _ hc1
    have h2 : "refined_static.expt" ∈ (afterRefineStatic p env "imported.expt"
        (runStage env "find_rotation_axis.err" (axisCmd p "imported.expt")
          (runStage env "dials.search_beam_position.err" (beamCmd "imported.expt")
            (spotsRun p env "imported.expt" (stImport p env ds fs0))).2).2).fs := by
      unfold afterRefineStatic
      exact runStage_fs_creates _ _ _ _ _ hc2
    have h3 : "refined.expt" ∈ (afterRefineSv p env "imported.expt"
        (runStage env "find_rotation_axis.err" (axisCmd p "imported.expt")
          (runStage env "dials.search_beam_position.err" (beamCmd "imported.expt")
            (spotsRun p env "imported.expt" (stImport p env ds fs0))).2).2).fs := by
      unfold afterRefineSv
      exact runStage_fs_creates _ _ _ _ _ hc3
    by_cases h4 : "integrated.expt" ∈ (afterIntegrate p env "imported.expt"
        (runStage env "find_rotation_axis.err" (axisCmd p "imported.expt")
          (runStage env "dials.search_beam_position.err" (beamCmd "imported.expt")
            (spotsRun p env "imported.expt" (stImport p env ds fs0))).2).2).fs
    · rw [show (⟨tryMakedirs dirs0 (workDirOf base p.sample ds.grid ds.xtal),
          (backEnd p env ws (workDirOf base p.sample ds.grid ds.xtal)
            (datasetIdOf base p.sample ds.grid ds.xtal) _ _).1,
          (backEnd p env ws (workDirOf base p.sample ds.grid ds.xtal)
            (datasetIdOf base p.sample ds.grid ds.xtal) _ _).2⟩ : CallOut).st =
        (backEnd p env ws (workDirOf base p.sample ds.grid ds.xtal)
          (datasetIdOf base p.sample ds.grid ds.xtal) _ _).1 from rfl]
      rw [backEnd_success h1 h2 h3 h4]
      split
      · unfold afterIntegrate afterRefineSv afterRefineStatic
        simp [runStage_cmds]
      · unfold afterIntegrate afterRefineSv afterRefineStatic
        simp [runStage_cmds]
    · rw [show (⟨tryMakedirs dirs0 (workDirOf base p.sample ds.grid ds.xtal),
          (backEnd p env ws (workDirOf base p.sample ds.grid ds.xtal)
            (datasetIdOf base p.sample ds.grid ds.xtal) _ _).1,
          (backEnd p env ws (workDirOf base p.sample ds.grid ds.xtal)
            (datasetIdOf base p.sample ds.grid ds.xtal) _ _).2⟩ : CallOut).st =
        (backEnd p env ws (workDirOf base p.sample ds.grid ds.xtal)
          (datasetIdOf base p.sample ds.grid ds.xtal) _ _).1 from rfl]
      rw [backEnd_int_fail h1 h2 h3 h4]
      unfold afterIntegrate afterRefineSv afterRefineStatic
      simp [runStage_cmds]


theorem claim_C3_cex :
    ((pcall pMask envMaskNoisy wsBase "/data" [] [] dsBase).outcome =
        .error "UnboundLocalError" ∧
     (pcall pMask envMaskNoisy wsBase "/data" [] [] dsBase).st.errs =
        [("dials.apply_mask.err", "err1\nerr2")]) ∧
    ((pcall pAxis envAxisNoisy wsBase "/data" [] [] dsBase).st.errs =
        [("find_rotation_axis.err", "boom")] ∧
     axisCmd pAxis "imported.expt" =
        "dials.find_rotation_axis imported.expt strong.refl fa output.experiments=optimised_axis.expt" ∧
     ("dials.find_rotation_axis.err", "boom") ∉
        (pcall pAxis envAxisNoisy wsBase "/data" [] [] dsBase).st.errs) := by
  refine ⟨⟨by decide, by decide⟩, by decide, by decide, by decide⟩

theorem claim_C3_witness :
    ((pcall pMask envMaskNoisy wsBase "/data" [] [] dsBase).outcome =
        .error "UnboundLocalError") ∧
    ((pcall pBase envImportFail wsBase "/data" [] [] dsBase).st.errs =
        [("dials.import.err", "import error")]) ∧
    integrateCmd pBeamAxis ∈
      (pcall pBeamAxis envNoisyCreate wsBase "/data" [] [] dsBase).st.cmds := by
  refine ⟨?_, ?_, ?_⟩
  · exact ((claim_C3 pMask envMaskNoisy wsBase "/data" [] [] dsBase).2.2.1
      (by decide) (by decide) (by decide) (by simp)).1
  · have h := (claim_C3 pBase envImportFail wsBase "/data" [] [] dsBase).2.1
      (by decide) (by simp)
    rw [h.2]
    decide
  · exact (claim_C3 pBeamAxis envNoisyCreate wsBase "/data" [] [] dsBase).2.2.2
      (by decide) (by decide) (by decide) (by decide) (by simp) (by decide)
      (by decide) (by decide) (by decide) (by decide) (by decide)



theorem getResult_id {ws : Workspace} {f : ℚ → ℚ → String} {g : ℚ → String}
    {wd id e rl : String} {sk : Bool} {res : DResult} {logs : List String}
    (h : getResult ws f g wd id e rl sk = .ok (res, logs)) :
    res.dataset_id = id := by
  cases sk with
  | true =>
    unfold getResult at h
    simp only [eq_self_iff_true, if_true] at h
    split at h
    · simp at h
    · split at h
      · rw [Except.ok.injEq, Prod.mk.injEq] at h
        obtain ⟨h1, _⟩ := h
        subst h1
        rfl
      · simp at h
  | false =>
    unfold getResult at h
    simp only [Bool.false_eq_true, if_false] at h
    split at h
    · simp at h
    · split at h
      · rw [Except.ok.injEq, Prod.mk.injEq] at h
        obtain ⟨h1, _⟩ := h
        subst h1
        rfl
      · simp at h

theorem backEnd_id {p : Params} {env : Env} {ws : Workspace} {wd id expt : String}
    {st : PSt} {r : DResult}
    (h : (backEnd p env ws wd id expt st).2 = .ok (some r)) :
    r.dataset_id = id := by
  unfold backEnd at h
  dsimp only at h
  split at h
  · split at h
    · split at h
      · split at h
        · split at h
          · simp at h
          · next res heq =>
            rw [Except.ok.injEq, Option.some.injEq] at h
            subst h
            exact getResult_id (show _ = Except.ok (res.1, res.2) from heq)
        · simp at h
      · simp at h
    · simp at h
  · simp at h

/-- C7: the working directory is `base/sample/grid{G}/xtal{C:03}` with the
crystal index zero-padded to width 3; creating it is idempotent (an
existing directory is not an error); and every returned Dataset Result's
`dataset_id` equals the `sample/grid{G}/xtal{C:03}` suffix of that path
(provided the sample name is non-empty and contains no path separator). -/
theorem claim_C7 (p : Params) (env : Env) (ws : Workspace) (base : String)
    (dirs0 fs0 : List String) (ds : Dataset)
    (hs : p.sample ≠ "") (hns : ∀ ch ∈ p.sample.data, ch ≠ '/') :
    datasetIdOf base p.sample ds.grid ds.xtal =
      p.sample ++ "/grid" ++ pyStr ds.grid ++ "/xtal" ++ pyPad3 ds.xtal ∧
    workDirOf base p.sample ds.grid ds.xtal ∈
      tryMakedirs dirs0 (workDirOf base p.sample ds.grid ds.xtal) ∧
    (workDirOf base p.sample ds.grid ds.xtal ∈ dirs0 →
      tryMakedirs dirs0 (workDirOf base p.sample ds.grid ds.xtal) = dirs0) ∧
    (∀ r : DResult, (pcall p env ws base dirs0 fs0 ds).outcome = .ok (some r) →
      r.dataset_id =
        p.sample ++ "/grid" ++ pyStr ds.grid ++ "/xtal" ++ pyPad3 ds.xtal) := by
  refine ⟨datasetIdOf_eq base p.sample ds.grid ds.xtal hs hns, ?_, ?_, ?_⟩
  · unfold tryMakedirs osMakedirs
    by_cases hd : workDirOf base p.sample ds.grid ds.xtal ∈ dirs0
    · rw [if_pos hd]
      exact hd
    · rw [if_neg hd]
      simp
  · intro hd
    unfold tryMakedirs osMakedirs
    rw [if_pos hd]
  · intro r hr
    rw [← datasetIdOf_eq base p.sample ds.grid ds.xtal hs hns]
    by_cases hskip : "integrated.expt" ∈ fs0
    · rw [pcall_skip hskip] at hr
      split at hr
      · simp at hr
      · next res heq =>
        rw [show (⟨tryMakedirs dirs0 (workDirOf base p.sample ds.grid ds.xtal),
            ⟨fs0, [], ["Skipping " ++ datasetIdOf base p.sample ds.grid ds.xtal ++
              " as file integrated.expt exists"] ++ res.2, []⟩,
            .ok (some res.1)⟩ : CallOut).outcome = .ok (some res.1) from rfl] at hr
        rw [Except.ok.injEq, Option.some.injEq] at hr
        subst hr
        exact getResult_id (show _ = Except.ok (res.1, res.2) from heq)
    · cases hfe : frontEnd p env ds fs0 with
      | importFailed st =>
        rw [pcall_import_failed hskip hfe] at hr
        simp at hr
      | unbound st =>
        rw [pcall_unbound hskip hfe] at hr
        simp at hr
      | ready e st =>
        rw [pcall_ready hskip hfe] at hr
        exact backEnd_id hr

theorem claim_C7_witness :
    datasetIdOf "/data" pBase.sample dsBase.grid dsBase.xtal =
      pBase.sample ++ "/grid" ++ pyStr dsBase.grid ++ "/xtal" ++ pyPad3 dsBase.xtal ∧
    workDirOf "/data" pBase.sample dsBase.grid dsBase.xtal ∈
      tryMakedirs [] (workDirOf "/data" pBase.sample dsBase.grid dsBase.xtal) ∧
    skipResult.dataset_id =
      pBase.sample ++ "/grid" ++ pyStr dsBase.grid ++ "/xtal" ++ pyPad3 dsBase.xtal :=
  ⟨(claim_C7 pBase envQuiet wsBase "/data" [] ["integrated.expt"] dsBase
      (by decide) (by decide)).1,
   (claim_C7 pBase envQuiet wsBase "/data" [] ["integrated.expt"] dsBase
      (by decide) (by decide)).2.1,
   (claim_C7 pBase envQuiet wsBase "/data" [] ["integrated.expt"] dsBase
      (by decide) (by decide)).2.2.2 skipResult (by decide)⟩

/-- C5 (amended): provided every worker returns (no exception escapes a
`ProcessDataset.__call__`) and every collected result has a nonzero
observation total, the coordinator yields one entry per descriptor in the
original registry order — position `i` holds descriptor `i`'s outcome —
and the summary loop emits exactly one line per non-absent result.  When a
worker raises (e.g. the masking `UnboundLocalError`) the run aborts with
that exception and returns no list at all. -/
theorem claim_C5 (p : Params) (env : Env) (ws : Workspace) (base : String)
    (dirs0 : List String) (fsOf : Dataset → List String)
    (dss : List Dataset) (results : List (Option DResult))
    (h : gatherResults p env ws base dirs0 fsOf dss = .ok results)
    (hpos : ∀ r : DResult, some r ∈ results → r.total ≠ 0) :
    results.length = dss.length ∧
    (∀ i (hi : i < dss.length), ∃ hri : i < results.length,
      (pcall p env ws base dirs0 (fsOf (dss.get ⟨i, hi⟩)) (dss.get ⟨i, hi⟩)).outcome
        = .ok (results.get ⟨i, hri⟩)) ∧
    (∃ ls, summaryLoop results = .ok ls ∧
      ls.length = (results.filter Option.isSome).length) := by
  obtain ⟨hlen, hspec⟩ := gatherResults_spec p env ws base dirs0 fsOf dss results h
  exact ⟨hlen, hspec, summaryLoop_ok results hpos⟩

theorem claim_C5_cex :
    gatherResults pMask envMaskNoisy wsBase "/data" [] (fun _ => []) [dsBase] =
      .error "UnboundLocalError" := by
  decide

theorem claim_C5_witness :
    ([some fullResult, none] : List (Option DResult)).length =
      ([dsBase, ds2] : List Dataset).length ∧
    (∃ ls, summaryLoop [some fullResult, none] = .ok ls ∧ ls.length = 1) := by
  have h := claim_C5 pBase envMixed wsBase "/data" [] (fun _ => []) [dsBase, ds2]
    [some fullResult, none] (by decide)
    (by intro r hr; simp at hr; subst hr; decide)
  refine ⟨h.1, ?_⟩
  obtain ⟨ls, hls, hlen⟩ := h.2.2
  exact ⟨ls, hls, by rw [hlen]; decide⟩


end EdScripts
